import Mathlib

/-
  Formal model of a FortiGate-to-Cisco-FTD configuration converter.

  The converter is a pure, single-pass transformation over a parsed
  YAML-like tree.  We embed the dynamically typed Python values as the
  inductive type `Val` (string, int, bool, None, list, dict with string
  keys), and model Python exceptions with `Except String`: a thrown
  exception is `Except.error tag` where `tag` names the Python exception
  class.  Dicts are association lists; YAML mappings have distinct keys,
  and lookups take the first matching key.
-/

set_option maxHeartbeats 1000000

inductive Val : Type where
  | s (v : String)
  | i (v : Int)
  | b (v : Bool)
  | none
  | list (xs : List Val)
  | dict (xs : List (String × Val))

abbrev PyM (α : Type) : Type := Except String α

@[simp] theorem ok_bind {α β : Type} (a : α) (f : α → PyM β) :
    (Except.ok a >>= f : PyM β) = f a := rfl

@[simp] theorem error_bind {α β : Type} (e : String) (f : α → PyM β) :
    (Except.error e >>= f : PyM β) = Except.error e := rfl

@[simp] theorem pure_eq_ok {α : Type} (a : α) : (pure a : PyM α) = Except.ok a := rfl

/-- The single-quote character (code 39), used by Python repr of strings. -/
def squote : String := String.singleton (Char.ofNat 39)

mutual
/-- Python repr() on the value universe.  Strings are shown in single
    quotes; container reprs recurse.  (Python escapes exotic characters
    inside reprs; that refinement is irrelevant here since no translation
    result ever depends on a container repr.) -/
def pyRepr : Val → String
  | .s v => squote ++ v ++ squote
  | .i v => toString v
  | .b v => if v then "True" else "False"
  | .none => "None"
  | .list xs => "[" ++ String.intercalate ", " (pyReprList xs) ++ "]"
  | .dict xs => "\x7b" ++ String.intercalate ", " (pyReprDict xs) ++ "\x7d"

def pyReprList : List Val → List String
  | [] => []
  | x :: xs => pyRepr x :: pyReprList xs

def pyReprDict : List (String × Val) → List String
  | [] => []
  | kv :: xs => (squote ++ kv.1 ++ squote ++ ": " ++ pyRepr kv.2) :: pyReprDict xs
end

/-- Python str(): identity on strings, repr on everything else
    (str and repr agree on ints, bools, None and containers). -/
def pyStr : Val → String
  | .s v => v
  | v => pyRepr v

mutual
/-- Python == on the value universe.  Values of different types compare
    unequal (Python's numeric cross-type equalities such as True == 1 do
    not arise: the converter only compares against string constants).
    Python dict equality ignores order; order sensitivity here is
    unobservable because the converter only compares against strings. -/
def pyBeq : Val → Val → Bool
  | .s a, .s b => a == b
  | .i a, .i b => a == b
  | .b a, .b b => a == b
  | .none, .none => true
  | .list a, .list b => pyBeqList a b
  | .dict a, .dict b => pyBeqDict a b
  | _, _ => false

def pyBeqList : List Val → List Val → Bool
  | [], [] => true
  | a :: as1, b :: bs1 => pyBeq a b && pyBeqList as1 bs1
  | _, _ => false

def pyBeqDict : List (String × Val) → List (String × Val) → Bool
  | [], [] => true
  | a :: as1, b :: bs1 => (a.1 == b.1 && pyBeq a.2 b.2) && pyBeqDict as1 bs1
  | _, _ => false
end

/-- ASCII lower-casing of one character (Python str.lower; the converter
    only meets ASCII configuration keywords). -/
def charLower (c : Char) : Char :=
  if 'A' ≤ c && c ≤ 'Z' then Char.ofNat (c.toNat + 32) else c

/-- ASCII upper-casing of one character (Python str.upper). -/
def charUpper (c : Char) : Char :=
  if 'a' ≤ c && c ≤ 'z' then Char.ofNat (c.toNat - 32) else c

/-- Python str.lower(). -/
def pyLower (s : String) : String := ⟨s.data.map charLower⟩

/-- Python str.upper(). -/
def pyUpper (s : String) : String := ⟨s.data.map charUpper⟩

/-- Splitting on a dot, accumulator style (Python str.split with the
    one-character separator used by the netmask conversion): every dot
    ends the current field, and the empty string splits to one empty
    field. -/
def splitDotAux : List Char → List Char → List String
  | [], acc => [⟨acc.reverse⟩]
  | c :: cs, acc =>
    if c = '.' then ⟨acc.reverse⟩ :: splitDotAux cs []
    else splitDotAux cs (c :: acc)

/-- Python netmask.split(chr 46). -/
def pySplitDot (s : String) : List String := splitDotAux s.data []

def isSpaceChar (c : Char) : Bool := c = ' ' || c = '\t' || c = '\n' || c = '\r'

def isDigitChar (c : Char) : Bool := '0' ≤ c && c ≤ '9'

def digitsToNat (cs : List Char) : Nat :=
  cs.foldl (fun acc c => acc * 10 + (c.toNat - 48)) 0

/-- Python int(str): surrounding whitespace is stripped, one optional sign,
    then a non-empty run of decimal digits; anything else raises ValueError
    (modelled as Option.none).  Python additionally accepts underscore
    separators and non-ASCII digits, which never occur in the dotted-quad
    netmask octets this function is applied to. -/
def pyInt? (s : String) : Option Int :=
  let cs := (s.data.dropWhile isSpaceChar).reverse.dropWhile isSpaceChar |>.reverse
  let (neg, ds) :=
    match cs with
    | '-' :: rest => (true, rest)
    | '+' :: rest => (false, rest)
    | rest => (false, rest)
  if ds.isEmpty then Option.none
  else if ds.all isDigitChar then
    some (if neg then -(digitsToNat ds : Int) else (digitsToNat ds : Int))
  else Option.none

/-- Key membership in an association-list dict (Python `k in d`). -/
def hasKey (xs : List (String × Val)) (k : String) : Bool :=
  xs.any (fun p => p.1 == k)

/-- Python dict.get(k, d): the stored value, or the default when absent. -/
def dictGet (xs : List (String × Val)) (k : String) (d : Val) : Val :=
  match xs.find? (fun p => p.1 == k) with
  | some p => p.2
  | Option.none => d

/-- Python obj.get(k, d): only dicts have a get method. -/
def pyGet (v : Val) (k : String) (d : Val) : PyM Val :=
  match v with
  | .dict xs => pure (dictGet xs k d)
  | _ => throw "AttributeError"

@[simp] theorem pyGet_dict (xs : List (String × Val)) (k : String) (d : Val) :
    pyGet (.dict xs) k d = Except.ok (dictGet xs k d) := rfl

/-- Python obj[k] with a string key: dict lookup (KeyError when the key is
    absent); a TypeError on every other receiver. -/
def pyGetItem (v : Val) (k : String) : PyM Val :=
  match v with
  | .dict xs =>
    match xs.find? (fun p => p.1 == k) with
    | some p => pure p.2
    | Option.none => throw "KeyError"
  | _ => throw "TypeError"

/-- Python obj[n] with a non-negative integer index: list element or
    one-character string (IndexError past the end); an integer key is
    absent from a string-keyed dict (KeyError); TypeError otherwise. -/
def pyIndexNat (v : Val) (n : Nat) : PyM Val :=
  match v with
  | .list xs =>
    match xs.get? n with
    | some x => pure x
    | Option.none => throw "IndexError"
  | .s t =>
    match t.data.get? n with
    | some c => pure (.s (String.singleton c))
    | Option.none => throw "IndexError"
  | .dict _ => throw "KeyError"
  | _ => throw "TypeError"

/-- Substring test on strings (Python `needle in hay`). -/
def pyStrIn (needle hay : String) : Bool :=
  hay.data.tails.any (fun t => needle.data.isPrefixOf t)

/-- Python `x in c`: key test on dicts, membership on lists, substring test
    on strings (TypeError for a non-string needle), TypeError otherwise. -/
def pyIn (x : Val) (c : Val) : PyM Bool :=
  match c, x with
  | .dict xs, .s k => pure (hasKey xs k)
  | .dict _, _ => pure false
  | .list xs, _ => pure (xs.any (fun y => pyBeq x y))
  | .s t, .s k => pure (pyStrIn k t)
  | .s _, _ => throw "TypeError"
  | _, _ => throw "TypeError"

@[simp] theorem pyIn_dict (xs : List (String × Val)) (k : String) :
    pyIn (.s k) (.dict xs) = Except.ok (hasKey xs k) := rfl

/-- Python truthiness: None, empty containers, empty strings, 0 and False
    are falsy; everything else is truthy. -/
def pyTruthy : Val → Bool
  | .none => false
  | .s t => !(t == "")
  | .i n => !(n == 0)
  | .b v => v
  | .list xs => !xs.isEmpty
  | .dict xs => !xs.isEmpty

/-- Python iteration: lists yield elements, dicts yield their keys,
    strings yield one-character strings; TypeError otherwise. -/
def pyIter : Val → PyM (List Val)
  | .list xs => pure xs
  | .dict xs => pure (xs.map (fun p => Val.s p.1))
  | .s t => pure (t.data.map (fun c => Val.s (String.singleton c)))
  | _ => throw "TypeError"

/-- Python dict.keys() (as a list); only dicts have it. -/
def pyKeys : Val → PyM (List String)
  | .dict xs => pure (xs.map Prod.fst)
  | _ => throw "AttributeError"

/-- Python len(): element count of a list or dict, character count of a
    string; TypeError otherwise. -/
def pyLen : Val → PyM Nat
  | .list xs => pure xs.length
  | .dict xs => pure xs.length
  | .s t => pure t.length
  | _ => throw "TypeError"

/-- A monadic map modelling a Python for-loop that appends one converted
    record per source record, propagating the first exception. -/
def eachM {α : Type} (f : Val → PyM α) : List Val → PyM (List α)
  | [] => pure []
  | x :: xs => do
    let y ← f x
    let ys ← eachM f xs
    pure (y :: ys)

@[simp] theorem eachM_nil {α : Type} (f : Val → PyM α) : eachM f [] = Except.ok [] := rfl

theorem eachM_cons {α : Type} (f : Val → PyM α) (x : Val) (xs : List Val) :
    eachM f (x :: xs) = (f x >>= fun y => eachM f xs >>= fun ys => pure (y :: ys)) := rfl

/-- Wrapping of a member entry as a one-field record (the comprehension
    pattern `[ \x7b "name": m \x7d for m in members ]`). -/
def wrapName (v : Val) : Val := .dict [("name", v)]

/-
  Output record types (the FTD FDM shapes built by the converters).
  Fields that the code always builds from f-strings or constants are
  Lean strings / booleans; fields copied from the source tree carry the
  dynamic `Val` type, exactly as in the Python dict literals.
-/

structure NetworkObject : Type where
  name : Val
  description : Val
  type : String
  subType : String
  value : Val

structure NetworkGroup : Type where
  name : Val
  description : Val
  type : String
  objects : List Val

structure PortObject : Type where
  name : Val
  description : Val
  type : String
  protocol : String
  port : Val

structure PortGroup : Type where
  name : Val
  description : Val
  type : String
  objects : List Val

structure AccessRule : Type where
  name : Val
  ruleAction : String
  enabled : Bool
  sourceZones : List Val
  destinationZones : List Val
  sourceNetworks : List Val
  destinationNetworks : List Val
  sourcePorts : List Val
  logBegin : Bool
  logEnd : Bool

structure NatRule : Type where
  name : String
  natType : String
  sourceInterface : Val
  destinationInterface : Val
  originalSource : List Val
  originalDestination : List Val
  translatedSource : Val

structure TargetConfig : Type where
  network_objects : List NetworkObject
  network_groups : List NetworkGroup
  port_objects : List PortObject
  port_groups : List PortGroup
  access_policies : List AccessRule
  nat_policies : List NatRule

/-
  The list-of-records converter (src/main.py, class FortiGateToFTDConverter).
  Every method is translated statement by statement; the loop bodies of the
  convert_* methods are factored out as named per-record functions, and the
  section-access prefixes (chains of .get calls plus the iteration over the
  resulting section) as named section functions.
-/

namespace Main

/-- main.py lines 45-54.  `elif A and B` with a short-circuit `and` is
    expanded into nested conditionals; when A holds and B fails the chain
    falls through to the later branches, exactly as in Python. -/
def _determine_address_type (addr : Val) : PyM String := do
  if (← pyIn (.s "subnet") addr) then
    pure "NETWORK"
  else if (← pyIn (.s "start-ip") addr) then
    if (← pyIn (.s "end-ip") addr) then
      pure "RANGE"
    else if (← pyIn (.s "fqdn") addr) then
      pure "FQDN"
    else
      pure "HOST"
  else if (← pyIn (.s "fqdn") addr) then
    pure "FQDN"
  else
    pure "HOST"

/-- main.py lines 56-65.  Note: the subnet branch returns the stored value
    verbatim, and the start-ip branch subscripts `end-ip` without checking
    for its presence. -/
def _extract_address_value (addr : Val) : PyM Val := do
  if (← pyIn (.s "subnet") addr) then
    pyGetItem addr "subnet"
  else if (← pyIn (.s "start-ip") addr) then do
    let sip ← pyGetItem addr "start-ip"
    let eip ← pyGetItem addr "end-ip"
    pure (.s (pyStr sip ++ "-" ++ pyStr eip))
  else if (← pyIn (.s "fqdn") addr) then
    pyGetItem addr "fqdn"
  else
    pyGet addr "ip" (.s "")

/-- The loop body of convert_address_objects (main.py lines 33-41). -/
def addrToNetworkObject (addr : Val) : PyM NetworkObject := do
  let name ← pyGet addr "name" (.s "")
  let description ← pyGet addr "comment" (.s "")
  let subType ← _determine_address_type addr
  let value ← _extract_address_value addr
  pure { name, description, type := "networkobject", subType, value }

/-- Section access of convert_address_objects (main.py lines 30-33):
    fg_config.get('firewall', dict()).get('address', []) and the iteration
    over the result. -/
def addressSection (cfg : Val) : PyM (List Val) := do
  let fw ← pyGet cfg "firewall" (.dict [])
  let a ← pyGet fw "address" (.list [])
  pyIter a

def convert_address_objects (cfg : Val) : PyM (List NetworkObject) := do
  let elems ← addressSection cfg
  eachM addrToNetworkObject elems

/-- The loop body of convert_address_groups (main.py lines 72-79). -/
def grpToNetworkGroup (grp : Val) : PyM NetworkGroup := do
  let name ← pyGet grp "name" (.s "")
  let description ← pyGet grp "comment" (.s "")
  let memberV ← pyGet grp "member" (.list [])
  let members ← pyIter memberV
  pure { name, description, type := "networkobjectgroup",
         objects := members.map wrapName }

def addrgrpSection (cfg : Val) : PyM (List Val) := do
  let fw ← pyGet cfg "firewall" (.dict [])
  let g ← pyGet fw "addrgrp" (.list [])
  pyIter g

def convert_address_groups (cfg : Val) : PyM (List NetworkGroup) := do
  let elems ← addrgrpSection cfg
  eachM grpToNetworkGroup elems

/-- main.py lines 102-111. -/
def _extract_port_value (svc : Val) : PyM Val := do
  if (← pyIn (.s "tcp-portrange") svc) then
    pyGetItem svc "tcp-portrange"
  else if (← pyIn (.s "udp-portrange") svc) then
    pyGetItem svc "udp-portrange"
  else if (← pyIn (.s "sctp-portrange") svc) then
    pyGetItem svc "sctp-portrange"
  else
    pure (.s "any")

/-- The loop body of convert_service_objects (main.py lines 88-98).
    The protocol is computed first (line 89); .upper() exists only on
    strings, so a non-string protocol raises AttributeError. -/
def svcToPortObject (svc : Val) : PyM PortObject := do
  let protoV ← pyGet svc "protocol" (.s "TCP")
  let protocol ←
    match protoV with
    | .s t => pure (pyUpper t)
    | _ => throw "AttributeError"
  let name ← pyGet svc "name" (.s "")
  let description ← pyGet svc "comment" (.s "")
  let port ← _extract_port_value svc
  pure { name, description, type := "portobject", protocol, port }

def serviceCustomSection (cfg : Val) : PyM (List Val) := do
  let fw ← pyGet cfg "firewall" (.dict [])
  let sv ← pyGet fw "service" (.dict [])
  let c ← pyGet sv "custom" (.list [])
  pyIter c

def convert_service_objects (cfg : Val) : PyM (List PortObject) := do
  let elems ← serviceCustomSection cfg
  eachM svcToPortObject elems

/-- The loop body of convert_service_groups (main.py lines 118-125). -/
def grpToPortGroup (grp : Val) : PyM PortGroup := do
  let name ← pyGet grp "name" (.s "")
  let description ← pyGet grp "comment" (.s "")
  let memberV ← pyGet grp "member" (.list [])
  let members ← pyIter memberV
  pure { name, description, type := "portobjectgroup",
         objects := members.map wrapName }

def serviceGroupSection (cfg : Val) : PyM (List Val) := do
  let fw ← pyGet cfg "firewall" (.dict [])
  let sv ← pyGet fw "service" (.dict [])
  let g ← pyGet sv "group" (.list [])
  pyIter g

def convert_service_groups (cfg : Val) : PyM (List PortGroup) := do
  let elems ← serviceGroupSection cfg
  eachM grpToPortGroup elems

/-- main.py lines 151-159: the fixed action table, consulted with the
    lower-cased action; .lower() exists only on strings. -/
def action_map : List (String × String) :=
  [("accept", "ALLOW"), ("allow", "ALLOW"), ("deny", "BLOCK"), ("reject", "BLOCK")]

def _map_action (fg_action : Val) : PyM String :=
  match fg_action with
  | .s v => pure ((action_map.lookup (pyLower v)).getD "BLOCK")
  | _ => throw "AttributeError"

/-- The loop body of convert_firewall_policies (main.py lines 134-147).
    The default for `name` (an f-string on the policy id) is evaluated
    before the lookup, as in Python; `logtraffic` is fetched once and used
    for both log fields, which the source computes twice with the same
    pure expression. -/
def policyToAccessRule (policy : Val) : PyM AccessRule := do
  let pid ← pyGet policy "policyid" (.s "")
  let name ← pyGet policy "name" (.s ("Rule_" ++ pyStr pid))
  let actionV ← pyGet policy "action" (.s "deny")
  let ruleAction ← _map_action actionV
  let status ← pyGet policy "status" (.s "enable")
  let srcintfV ← pyGet policy "srcintf" (.list [])
  let srcintf ← pyIter srcintfV
  let dstintfV ← pyGet policy "dstintf" (.list [])
  let dstintf ← pyIter dstintfV
  let srcaddrV ← pyGet policy "srcaddr" (.list [])
  let srcaddr ← pyIter srcaddrV
  let dstaddrV ← pyGet policy "dstaddr" (.list [])
  let dstaddr ← pyIter dstaddrV
  let serviceV ← pyGet policy "service" (.list [])
  let service ← pyIter serviceV
  let lt ← pyGet policy "logtraffic" (.s "disable")
  pure { name,
         ruleAction,
         enabled := pyBeq status (.s "enable"),
         sourceZones := srcintf.map wrapName,
         destinationZones := dstintf.map wrapName,
         sourceNetworks := srcaddr.map wrapName,
         destinationNetworks := dstaddr.map wrapName,
         sourcePorts := service.map wrapName,
         logBegin := !(pyBeq lt (.s "disable")),
         logEnd := !(pyBeq lt (.s "disable")) }

def policySection (cfg : Val) : PyM (List Val) := do
  let fw ← pyGet cfg "firewall" (.dict [])
  let p ← pyGet fw "policy" (.list [])
  pyIter p

def convert_firewall_policies (cfg : Val) : PyM (List AccessRule) := do
  let elems ← policySection cfg
  eachM policyToAccessRule elems

/-- The interface selection of convert_nat_policies (main.py lines 171-172):
    `policy.get(key, [ \x7b \x7d ])[0] if policy.get(key) else \x7b \x7d`.
    The conditional's guard uses a plain .get (default None); only when the
    stored value is truthy is it fetched again and subscripted at 0. -/
def natInterface (policy : Val) (key : String) : PyM Val := do
  let t ← pyGet policy key Val.none
  if pyTruthy t then do
    let l ← pyGet policy key (.list [.dict []])
    pyIndexNat l 0
  else
    pure (.dict [])

/-- The guarded loop body of convert_nat_policies (main.py lines 168-176). -/
def policyToNatRule (policy : Val) : PyM NatRule := do
  let pid ← pyGet policy "policyid" (.s "")
  let ippool ← pyGet policy "ippool" Val.none
  let sourceInterface ← natInterface policy "srcintf"
  let destinationInterface ← natInterface policy "dstintf"
  let srcaddrV ← pyGet policy "srcaddr" (.list [])
  let srcaddr ← pyIter srcaddrV
  let dstaddrV ← pyGet policy "dstaddr" (.list [])
  let dstaddr ← pyIter dstaddrV
  let ts ← pyGet policy "poolname" (.s "interface")
  pure { name := "NAT_" ++ pyStr pid,
         natType := if pyBeq ippool (.s "enable") then "DYNAMIC" else "STATIC",
         sourceInterface,
         destinationInterface,
         originalSource := srcaddr.map wrapName,
         originalDestination := dstaddr.map wrapName,
         translatedSource := ts }

/-- The boolean guard of the NAT loop: policy.get('nat') == 'enable'
    (on a non-dict the loop would raise before testing, so the value is
    irrelevant there). -/
def natEnabled (p : Val) : Bool :=
  match p with
  | .dict xs => pyBeq (dictGet xs "nat" Val.none) (.s "enable")
  | _ => false

/-- The filtered loop of convert_nat_policies (main.py lines 166-177). -/
def natLoop : List Val → PyM (List NatRule)
  | [] => pure []
  | p :: ps => do
    let natv ← pyGet p "nat" Val.none
    if pyBeq natv (.s "enable") then do
      let r ← policyToNatRule p
      let rs ← natLoop ps
      pure (r :: rs)
    else
      natLoop ps

def convert_nat_policies (cfg : Val) : PyM (List NatRule) := do
  let elems ← policySection cfg
  natLoop elems

/-- main.py lines 181-190: the six sub-translations in source order. -/
def convert_all (cfg : Val) : PyM TargetConfig := do
  let network_objects ← convert_address_objects cfg
  let network_groups ← convert_address_groups cfg
  let port_objects ← convert_service_objects cfg
  let port_groups ← convert_service_groups cfg
  let access_policies ← convert_firewall_policies cfg
  let nat_policies ← convert_nat_policies cfg
  pure { network_objects, network_groups, port_objects, port_groups,
         access_policies, nat_policies }

end Main

/-
  The named-map converter
  (src/FortiGateToFTDTool/fortigate_converter.py, class FortiGateToFTDConverter).
-/

namespace FGC

/-- Binary digit count used by _netmask_to_cidr.  Python computes
    bin(int(x))[2:].zfill(8).count(chr 49): the binary digits of the
    integer, zero-padded (never truncated), and counts the one-digits;
    for a negative integer the slice keeps the digits of the absolute
    value.  The count therefore equals the population count of the
    absolute value, computed here with a fuel argument so that it is
    structural (fuel n is enough: the value halves each step). -/
def popCountAux : Nat → Nat → Nat
  | 0, _ => 0
  | f + 1, n => if n = 0 then 0 else n % 2 + popCountAux f (n / 2)

def popCount (n : Nat) : Nat := popCountAux n n

/-- The body of the try-block of _netmask_to_cidr (fortigate_converter.py
    lines 240-244), octet by octet: int(x) (modelled by String.toInt?,
    which accepts the plain decimal forms that occur in netmask strings;
    a failing octet raises, caught by the bare except) and the one-bit
    count of each octet, summed. -/
def cidrSum : List String → Option Nat
  | [] => some 0
  | x :: xs =>
    match pyInt? x with
    | Option.none => Option.none
    | some n =>
      match cidrSum xs with
      | Option.none => Option.none
      | some r => some (popCount n.natAbs + r)

/-- fortigate_converter.py lines 225-248: netmask to prefix length, with
    the except-branch defaulting to 32. -/
def _netmask_to_cidr (netmask : String) : Nat :=
  match cidrSum (pySplitDot netmask) with
  | some k => k
  | Option.none => 32

/-- fortigate_converter.py lines 137-179. -/
def _determine_address_type (properties : Val) : PyM String := do
  let ty ← pyGet properties "type" Val.none
  if pyBeq ty (.s "iprange") then
    pure "RANGE"
  else if (← pyIn (.s "subnet") properties) then do
    let subnet_list ← pyGetItem properties "subnet"
    let n ← pyLen subnet_list
    if n ≥ 2 then do
      let m ← pyIndexNat subnet_list 1
      if pyStr m == "255.255.255.255" then
        pure "HOST"
      else
        pure "NETWORK"
    else
      pure "NETWORK"
  else
    pure "HOST"

/-- fortigate_converter.py lines 181-223. -/
def _extract_address_value (properties : Val) : PyM String := do
  let ty ← pyGet properties "type" Val.none
  if pyBeq ty (.s "iprange") then do
    let start_ip ← pyGet properties "start-ip" (.s "")
    let end_ip ← pyGet properties "end-ip" (.s "")
    pure (pyStr start_ip ++ "-" ++ pyStr end_ip)
  else if (← pyIn (.s "subnet") properties) then do
    let subnet_list ← pyGetItem properties "subnet"
    let n ← pyLen subnet_list
    if n ≥ 2 then do
      let ip_addr ← pyIndexNat subnet_list 0
      let m ← pyIndexNat subnet_list 1
      pure (pyStr ip_addr ++ "/" ++ toString (_netmask_to_cidr (pyStr m)))
    else
      if pyTruthy subnet_list then do
        let x ← pyIndexNat subnet_list 0
        pure (pyStr x)
      else
        pure ""
  else
    pure ""

/-- The loop body of convert_address_objects (fortigate_converter.py lines
    112-133): the object's name is the first key of its single-entry
    wrapping mapping (IndexError on an empty mapping), the properties its
    value. -/
def entryToNetworkObject (addr_dict : Val) : PyM NetworkObject := do
  let keys ← pyKeys addr_dict
  let object_name ←
    match keys with
    | [] => throw "IndexError"
    | k :: _ => pure k
  let properties ← pyGetItem addr_dict object_name
  let description ← pyGet properties "comment" (.s "")
  let subType ← _determine_address_type properties
  let value ← _extract_address_value properties
  pure { name := Val.s object_name, description, type := "networkobject",
         subType, value := Val.s value }

/-- fortigate_converter.py lines 82-135. -/
def convert_address_objects (cfg : Val) : PyM (List NetworkObject) := do
  let addresses ← pyGet cfg "firewall_address" (.dict [])
  if !(pyTruthy addresses) then
    pure []
  else do
    let elems ← pyIter addresses
    eachM entryToNetworkObject elems

end FGC

/-
  Basic lemmas about the embedding.
-/

theorem pyGet_ok_dict {v : Val} {k : String} {d x : Val}
    (h : pyGet v k d = Except.ok x) : ∃ xs, v = Val.dict xs := by
  cases v with
  | dict xs => exact ⟨xs, rfl⟩
  | s a => simp [pyGet] at h
  | i a => simp [pyGet] at h
  | b a => simp [pyGet] at h
  | none => simp [pyGet] at h
  | list a => simp [pyGet] at h

theorem find?_isSome_of_hasKey {xs : List (String × Val)} {k : String}
    (h : hasKey xs k = true) : ∃ p, xs.find? (fun p => p.1 == k) = some p := by
  unfold hasKey at h
  rcases List.any_eq_true.mp h with ⟨x, hx, hpx⟩
  have : (xs.find? (fun p => p.1 == k)).isSome := by
    rw [List.find?_isSome]
    exact ⟨x, hx, hpx⟩
  rcases Option.isSome_iff_exists.mp this with ⟨p, hp⟩
  exact ⟨p, hp⟩

theorem pyGetItem_ok_of_hasKey {xs : List (String × Val)} {k : String}
    (h : hasKey xs k = true) : ∃ v, pyGetItem (.dict xs) k = Except.ok v := by
  rcases find?_isSome_of_hasKey h with ⟨p, hp⟩
  exact ⟨p.2, by simp [pyGetItem, hp]⟩

theorem hasKey_of_find? {xs : List (String × Val)} {k : String} {pr : String × Val}
    (h : xs.find? (fun q => q.1 == k) = some pr) : hasKey xs k = true := by
  unfold hasKey
  rw [List.any_eq_true]
  exact ⟨pr, List.mem_of_find?_eq_some h, by simpa using List.find?_some h⟩

theorem dictGet_of_find? {xs : List (String × Val)} {k : String} {p : String × Val}
    (h : xs.find? (fun p => p.1 == k) = some p) (d : Val) : dictGet xs k d = p.2 := by
  simp [dictGet, h]

/-- A present key produces the same value whatever the default. -/
theorem dictGet_indep {xs : List (String × Val)} {k : String} {v : Val}
    (h : dictGet xs k Val.none = v) (hv : v ≠ Val.none) (d : Val) :
    dictGet xs k d = v := by
  unfold dictGet at h ⊢
  cases hf : xs.find? (fun p => p.1 == k) with
  | none => rw [hf] at h; exact absurd h.symm hv
  | some p => rw [hf] at h; exact h

theorem eachM_length {α : Type} {f : Val → PyM α} :
    ∀ {l : List Val} {out : List α}, eachM f l = Except.ok out → out.length = l.length := by
  intro l
  induction l with
  | nil => intro out h; simp [eachM] at h; simp [← h]
  | cons x xs ih =>
    intro out h
    rw [eachM_cons] at h
    cases hy : f x with
    | error e => rw [hy] at h; simp at h
    | ok y =>
      rw [hy] at h
      simp only [ok_bind] at h
      cases hys : eachM f xs with
      | error e => rw [hys] at h; simp at h
      | ok ys =>
        rw [hys] at h
        simp only [ok_bind, pure_eq_ok, Except.ok.injEq] at h
        subst h
        simp [ih hys]

theorem eachM_ok {α : Type} {f : Val → PyM α} :
    ∀ {l : List Val}, (∀ a ∈ l, ∃ b, f a = Except.ok b) →
      ∃ out, eachM f l = Except.ok out := by
  intro l
  induction l with
  | nil => intro _; exact ⟨[], rfl⟩
  | cons x xs ih =>
    intro h
    rcases h x (List.mem_cons_self x xs) with ⟨y, hy⟩
    rcases ih (fun a ha => h a (List.mem_cons_of_mem x ha)) with ⟨ys, hys⟩
    exact ⟨y :: ys, by rw [eachM_cons, hy, hys]; rfl⟩

/-
  Arithmetic facts about the binary digit count.
-/

theorem popCountAux_congr : ∀ (f g n : Nat), n ≤ f → n ≤ g →
    FGC.popCountAux f n = FGC.popCountAux g n := by
  intro f
  induction f with
  | zero =>
    intro g n h1 _
    have hn : n = 0 := Nat.le_zero.mp h1
    subst hn
    cases g with
    | zero => rfl
    | succ g => simp [FGC.popCountAux]
  | succ f ih =>
    intro g n h1 h2
    cases g with
    | zero =>
      have hn : n = 0 := Nat.le_zero.mp h2
      subst hn
      simp [FGC.popCountAux]
    | succ g =>
      by_cases hn : n = 0
      · subst hn; simp [FGC.popCountAux]
      · simp only [FGC.popCountAux, hn, if_false]
        have hf : n / 2 ≤ f := by omega
        have hg : n / 2 ≤ g := by omega
        rw [ih g (n / 2) hf hg]

theorem popCount_rec (n : Nat) : FGC.popCount n = n % 2 + FGC.popCount (n / 2) := by
  cases n with
  | zero => rfl
  | succ m =>
    show FGC.popCountAux (m + 1) (m + 1) = _
    simp only [FGC.popCountAux, Nat.succ_ne_zero, if_false]
    congr 1
    exact popCountAux_congr m ((m + 1) / 2) ((m + 1) / 2) (by omega) (Nat.le_refl _)

theorem popCount_mul_pow_add :
    ∀ (k a b : Nat), b < 2 ^ k → FGC.popCount (a * 2 ^ k + b) = FGC.popCount a + FGC.popCount b := by
  intro k
  induction k with
  | zero =>
    intro a b hb
    have hb0 : b = 0 := by omega
    subst hb0
    simp [FGC.popCount, FGC.popCountAux]
  | succ k ih =>
    intro a b hb
    have hpow : (2 : Nat) ^ (k + 1) = 2 ^ k * 2 := by ring
    have h1 : a * 2 ^ (k + 1) + b = b + (a * 2 ^ k) * 2 := by rw [hpow]; ring
    have hm : (a * 2 ^ (k + 1) + b) % 2 = b % 2 := by
      rw [h1]; exact Nat.add_mul_mod_self_right b (a * 2 ^ k) 2
    have hd : (a * 2 ^ (k + 1) + b) / 2 = a * 2 ^ k + b / 2 := by
      rw [h1, Nat.add_mul_div_right b (a * 2 ^ k) (by omega : (0:Nat) < 2)]
      omega
    have hb2 : b / 2 < 2 ^ k := by omega
    rw [popCount_rec (a * 2 ^ (k + 1) + b), hm, hd, ih a (b / 2) hb2, popCount_rec b]
    omega

/-
  Facts about the octet summation of the netmask conversion.
-/

theorem cidrSum_none : ∀ {xs : List String} {x : String},
    x ∈ xs → pyInt? x = Option.none → FGC.cidrSum xs = Option.none := by
  intro xs
  induction xs with
  | nil => intro x hx; exact absurd hx (List.not_mem_nil x)
  | cons y ys ih =>
    intro x hx h
    rcases List.mem_cons.mp hx with h1 | h2
    · subst h1
      simp [FGC.cidrSum, h]
    · cases hy : pyInt? y with
      | none => simp [FGC.cidrSum, hy]
      | some n => simp [FGC.cidrSum, hy, ih h2 h]

/-
  Facts about the NAT loop.
-/

theorem natLoop_length : ∀ {l : List Val} {out : List NatRule},
    Main.natLoop l = Except.ok out → out.length = l.countP Main.natEnabled := by
  intro l
  induction l with
  | nil =>
    intro out h
    simp [Main.natLoop] at h
    subst h
    rfl
  | cons p ps ih =>
    intro out h
    rw [Main.natLoop] at h
    cases hget : pyGet p "nat" Val.none with
    | error e => rw [hget] at h; simp at h
    | ok natv =>
      rw [hget] at h
      simp only [ok_bind] at h
      rcases pyGet_ok_dict hget with ⟨xs, hxs⟩
      subst hxs
      have hv : natv = dictGet xs "nat" Val.none := by
        simpa [pyGet] using hget.symm
      subst hv
      by_cases hg : pyBeq (dictGet xs "nat" Val.none) (Val.s "enable") = true
      · rw [if_pos hg] at h
        cases hr : Main.policyToNatRule (Val.dict xs) with
        | error e => rw [hr] at h; simp at h
        | ok r =>
          rw [hr] at h
          simp only [ok_bind] at h
          cases hrs : Main.natLoop ps with
          | error e => rw [hrs] at h; simp at h
          | ok rs =>
            rw [hrs] at h
            simp only [ok_bind, pure_eq_ok, Except.ok.injEq] at h
            subst h
            have hcount : Main.natEnabled (Val.dict xs) = true := by
              simpa [Main.natEnabled] using hg
            simp [List.countP_cons, hcount, ih hrs]
      · rw [if_neg hg] at h
        have hcount : Main.natEnabled (Val.dict xs) = false := by
          simpa [Main.natEnabled] using hg
        simp [List.countP_cons, hcount, ih h]

/-
  Behaviour of the NAT interface selection.
-/

theorem natInterface_absent {xs : List (String × Val)} {k : String}
    (h : dictGet xs k Val.none = Val.none) :
    Main.natInterface (.dict xs) k = Except.ok (Val.dict []) := by
  unfold Main.natInterface
  simp [pyGet_dict, h, pyTruthy]

theorem natInterface_cons {xs : List (String × Val)} {k : String} {x : Val} {l : List Val}
    (h : dictGet xs k Val.none = Val.list (x :: l)) :
    Main.natInterface (.dict xs) k = Except.ok x := by
  have h2 : dictGet xs k (Val.list [Val.dict []]) = Val.list (x :: l) :=
    dictGet_indep h (by simp) _
  unfold Main.natInterface
  simp [pyGet_dict, h, h2, pyTruthy, List.isEmpty, pyIndexNat]

/-
  Dissection of an emitted access rule into its field values: whenever the
  loop body returns a rule, every field equals the source expression over
  the policy record.
-/

theorem policyToAccessRule_shape {xs : List (String × Val)} {rule : AccessRule}
    (h : Main.policyToAccessRule (.dict xs) = Except.ok rule) :
    ∃ ra z1 z2 n1 n2 sp,
      Main._map_action (dictGet xs "action" (.s "deny")) = Except.ok ra ∧
      pyIter (dictGet xs "srcintf" (.list [])) = Except.ok z1 ∧
      pyIter (dictGet xs "dstintf" (.list [])) = Except.ok z2 ∧
      pyIter (dictGet xs "srcaddr" (.list [])) = Except.ok n1 ∧
      pyIter (dictGet xs "dstaddr" (.list [])) = Except.ok n2 ∧
      pyIter (dictGet xs "service" (.list [])) = Except.ok sp ∧
      rule = { name := dictGet xs "name"
                 (.s ("Rule_" ++ pyStr (dictGet xs "policyid" (.s "")))),
               ruleAction := ra,
               enabled := pyBeq (dictGet xs "status" (.s "enable")) (.s "enable"),
               sourceZones := z1.map wrapName,
               destinationZones := z2.map wrapName,
               sourceNetworks := n1.map wrapName,
               destinationNetworks := n2.map wrapName,
               sourcePorts := sp.map wrapName,
               logBegin := !(pyBeq (dictGet xs "logtraffic" (.s "disable")) (.s "disable")),
               logEnd := !(pyBeq (dictGet xs "logtraffic" (.s "disable")) (.s "disable")) } := by
  unfold Main.policyToAccessRule at h
  simp only [pyGet_dict, ok_bind] at h
  cases hra : Main._map_action (dictGet xs "action" (.s "deny")) with
  | error e => rw [hra] at h; simp at h
  | ok ra =>
    rw [hra] at h
    simp only [ok_bind] at h
    cases h1 : pyIter (dictGet xs "srcintf" (.list [])) with
    | error e => rw [h1] at h; simp at h
    | ok z1 =>
      rw [h1] at h
      simp only [ok_bind] at h
      cases h2 : pyIter (dictGet xs "dstintf" (.list [])) with
      | error e => rw [h2] at h; simp at h
      | ok z2 =>
        rw [h2] at h
        simp only [ok_bind] at h
        cases h3 : pyIter (dictGet xs "srcaddr" (.list [])) with
        | error e => rw [h3] at h; simp at h
        | ok n1 =>
          rw [h3] at h
          simp only [ok_bind] at h
          cases h4 : pyIter (dictGet xs "dstaddr" (.list [])) with
          | error e => rw [h4] at h; simp at h
          | ok n2 =>
            rw [h4] at h
            simp only [ok_bind] at h
            cases h5 : pyIter (dictGet xs "service" (.list [])) with
            | error e => rw [h5] at h; simp at h
            | ok sp =>
              rw [h5] at h
              simp only [ok_bind, pure_eq_ok, Except.ok.injEq] at h
              exact ⟨ra, z1, z2, n1, n2, sp, rfl, rfl, rfl, rfl, rfl, rfl, h.symm⟩

/-
  Dissection of an emitted NAT rule into its field values.
-/

theorem policyToNatRule_shape {xs : List (String × Val)} {r : NatRule}
    (h : Main.policyToNatRule (.dict xs) = Except.ok r) :
    ∃ si di os od,
      Main.natInterface (.dict xs) "srcintf" = Except.ok si ∧
      Main.natInterface (.dict xs) "dstintf" = Except.ok di ∧
      pyIter (dictGet xs "srcaddr" (.list [])) = Except.ok os ∧
      pyIter (dictGet xs "dstaddr" (.list [])) = Except.ok od ∧
      r = { name := "NAT_" ++ pyStr (dictGet xs "policyid" (.s "")),
            natType := if pyBeq (dictGet xs "ippool" Val.none) (.s "enable")
                       then "DYNAMIC" else "STATIC",
            sourceInterface := si,
            destinationInterface := di,
            originalSource := os.map wrapName,
            originalDestination := od.map wrapName,
            translatedSource := dictGet xs "poolname" (.s "interface") } := by
  unfold Main.policyToNatRule at h
  simp only [pyGet_dict, ok_bind] at h
  cases h1 : Main.natInterface (.dict xs) "srcintf" with
  | error e => rw [h1] at h; simp at h
  | ok si =>
    rw [h1] at h
    simp only [ok_bind] at h
    cases h2 : Main.natInterface (.dict xs) "dstintf" with
    | error e => rw [h2] at h; simp at h
    | ok di =>
      rw [h2] at h
      simp only [ok_bind] at h
      cases h3 : pyIter (dictGet xs "srcaddr" (.list [])) with
      | error e => rw [h3] at h; simp at h
      | ok os =>
        rw [h3] at h
        simp only [ok_bind] at h
        cases h4 : pyIter (dictGet xs "dstaddr" (.list [])) with
        | error e => rw [h4] at h; simp at h
        | ok od =>
          rw [h4] at h
          simp only [ok_bind, pure_eq_ok, Except.ok.injEq] at h
          exact ⟨si, di, os, od, rfl, rfl, rfl, rfl, h.symm⟩

@[simp] theorem pyBeq_s (a b : String) : pyBeq (.s a) (.s b) = (a == b) := rfl

/-- The action table, resolved: accept and allow map to ALLOW, and every
    other key (deny and reject included) ends at the BLOCK default. -/
theorem lookup_action (a : String) :
    (Main.action_map.lookup a).getD "BLOCK" =
      if a = "accept" ∨ a = "allow" then "ALLOW" else "BLOCK" := by
  by_cases h1 : a = "accept"
  · subst h1; rfl
  · by_cases h2 : a = "allow"
    · subst h2; rfl
    · by_cases h3 : a = "deny"
      · subst h3; rfl
      · by_cases h4 : a = "reject"
        · subst h4; rfl
        · have e1 : (a == "accept") = false := beq_eq_false_iff_ne.mpr h1
          have e2 : (a == "allow") = false := beq_eq_false_iff_ne.mpr h2
          have e3 : (a == "deny") = false := beq_eq_false_iff_ne.mpr h3
          have e4 : (a == "reject") = false := beq_eq_false_iff_ne.mpr h4
          simp [Main.action_map, List.lookup, e1, e2, e3, e4, h1, h2]

/-- Claim C4: for every emitted access rule, the rule action is the fixed
    case-insensitive lookup of the policy's action field (with the absent
    field defaulting to deny): accept and allow give ALLOW; deny, reject
    and every unrecognized action give BLOCK. -/
theorem C4_theorem (policy : Val) (rule : AccessRule) (act : String)
    (hrule : Main.policyToAccessRule policy = Except.ok rule)
    (hact : pyGet policy "action" (Val.s "deny") = Except.ok (Val.s act)) :
    rule.ruleAction =
      if pyLower act = "accept" ∨ pyLower act = "allow" then "ALLOW" else "BLOCK" := by
  rcases pyGet_ok_dict hact with ⟨xs, hxs⟩
  subst hxs
  have hdg : dictGet xs "action" (Val.s "deny") = Val.s act := by simpa using hact
  rcases policyToAccessRule_shape hrule with ⟨ra, z1, z2, n1, n2, sp, hra, -, -, -, -, -, hr⟩
  subst hr
  show ra = _
  rw [hdg] at hra
  simp only [Main._map_action, pure_eq_ok, Except.ok.injEq] at hra
  rw [← hra, lookup_action]

/-- Concrete instance of C4_theorem: a policy whose action is the
    mixed-case unrecognized-by-case string Reject maps to BLOCK. -/
theorem C4_witness :
    ({ name := Val.s "Rule_", ruleAction := "BLOCK", enabled := true,
       sourceZones := [], destinationZones := [], sourceNetworks := [],
       destinationNetworks := [], sourcePorts := [], logBegin := false,
       logEnd := false } : AccessRule).ruleAction =
      if pyLower "Reject" = "accept" ∨ pyLower "Reject" = "allow"
      then "ALLOW" else "BLOCK" :=
  C4_theorem (Val.dict [("action", Val.s "Reject")]) _ "Reject" rfl rfl

/-- Claim C6: both log fields of an emitted access rule carry the same
    value, true exactly when the policy's logtraffic field (defaulting to
    disable when absent) differs from disable. -/
theorem C6_theorem (policy : Val) (rule : AccessRule) (lt : Val)
    (hrule : Main.policyToAccessRule policy = Except.ok rule)
    (hlt : pyGet policy "logtraffic" (Val.s "disable") = Except.ok lt) :
    rule.logBegin = rule.logEnd ∧ rule.logBegin = !(pyBeq lt (Val.s "disable")) := by
  rcases pyGet_ok_dict hlt with ⟨xs, hxs⟩
  subst hxs
  have hdg : dictGet xs "logtraffic" (Val.s "disable") = lt := by simpa using hlt
  rcases policyToAccessRule_shape hrule with ⟨ra, z1, z2, n1, n2, sp, -, -, -, -, -, -, hr⟩
  subst hr
  exact ⟨rfl, by rw [← hdg]⟩

/-- Concrete instance of C6_theorem: logtraffic "all" turns both log
    fields on. -/
theorem C6_witness :
    (({ name := Val.s "Rule_", ruleAction := "BLOCK", enabled := true,
        sourceZones := [], destinationZones := [], sourceNetworks := [],
        destinationNetworks := [], sourcePorts := [], logBegin := true,
        logEnd := true } : AccessRule).logBegin =
     ({ name := Val.s "Rule_", ruleAction := "BLOCK", enabled := true,
        sourceZones := [], destinationZones := [], sourceNetworks := [],
        destinationNetworks := [], sourcePorts := [], logBegin := true,
        logEnd := true } : AccessRule).logEnd)
    ∧ ({ name := Val.s "Rule_", ruleAction := "BLOCK", enabled := true,
         sourceZones := [], destinationZones := [], sourceNetworks := [],
         destinationNetworks := [], sourcePorts := [], logBegin := true,
         logEnd := true } : AccessRule).logBegin =
       !(pyBeq (Val.s "all") (Val.s "disable")) :=
  C6_theorem (Val.dict [("logtraffic", Val.s "all")]) _ (Val.s "all") rfl rfl

/-- Counterexample to claim C7 as stated: the policy status "foo" differs
    from "disable", yet the emitted rule is disabled — enabled is compared
    against "enable", not against "disable". -/
theorem C7_counterexample :
    Main.policyToAccessRule (Val.dict [("status", Val.s "foo")]) =
      Except.ok { name := Val.s "Rule_", ruleAction := "BLOCK", enabled := false,
                  sourceZones := [], destinationZones := [], sourceNetworks := [],
                  destinationNetworks := [], sourcePorts := [], logBegin := false,
                  logEnd := false }
    ∧ "foo" ≠ "disable" :=
  ⟨rfl, by decide⟩

/-- Claim C7 amended: the emitted rule's enabled field is true exactly when
    the policy's status field (defaulting to enable when absent) equals
    "enable"; any other status value disables the rule. -/
theorem C7_amended (policy : Val) (rule : AccessRule) (st : Val)
    (hrule : Main.policyToAccessRule policy = Except.ok rule)
    (hst : pyGet policy "status" (Val.s "enable") = Except.ok st) :
    rule.enabled = pyBeq st (Val.s "enable") := by
  rcases pyGet_ok_dict hst with ⟨xs, hxs⟩
  subst hxs
  have hdg : dictGet xs "status" (Val.s "enable") = st := by simpa using hst
  rcases policyToAccessRule_shape hrule with ⟨ra, z1, z2, n1, n2, sp, -, -, -, -, -, -, hr⟩
  subst hr
  show pyBeq (dictGet xs "status" (Val.s "enable")) (Val.s "enable") = _
  rw [hdg]

/-- Concrete instance of C7_amended: status disable yields a disabled rule. -/
theorem C7_witness :
    ({ name := Val.s "Rule_", ruleAction := "BLOCK", enabled := false,
       sourceZones := [], destinationZones := [], sourceNetworks := [],
       destinationNetworks := [], sourcePorts := [], logBegin := false,
       logEnd := false } : AccessRule).enabled =
      pyBeq (Val.s "disable") (Val.s "enable") :=
  C7_amended (Val.dict [("status", Val.s "disable")]) _ (Val.s "disable") rfl rfl

/-- Claim C9: for every NAT-enabled policy whose NAT rule is emitted, the
    rule is DYNAMIC exactly when ippool equals enable and STATIC
    otherwise; each of the two interface fields is the first element of
    its interface-list field when that field is a present non-empty
    sequence and the empty record when the field is absent (all four
    cases are stated, with no assumption on the policy beyond the NAT
    guard); and translatedSource is the poolname field with the literal
    default "interface". -/
theorem C9_theorem (xs : List (String × Val)) (r : NatRule) (sx dx : Val)
    (sl dl : List Val)
    (hrule : Main.policyToNatRule (Val.dict xs) = Except.ok r)
    (hnat : pyBeq (dictGet xs "nat" Val.none) (Val.s "enable") = true) :
    r.natType = (if pyBeq (dictGet xs "ippool" Val.none) (Val.s "enable")
                 then "DYNAMIC" else "STATIC")
    ∧ r.translatedSource = dictGet xs "poolname" (Val.s "interface")
    ∧ (dictGet xs "srcintf" Val.none = Val.none → r.sourceInterface = Val.dict [])
    ∧ (dictGet xs "srcintf" Val.none = Val.list (sx :: sl) → r.sourceInterface = sx)
    ∧ (dictGet xs "dstintf" Val.none = Val.none → r.destinationInterface = Val.dict [])
    ∧ (dictGet xs "dstintf" Val.none = Val.list (dx :: dl) → r.destinationInterface = dx) := by
  rcases policyToNatRule_shape hrule with ⟨si, di, os, od, h1, h2, h3, h4, hr⟩
  subst hr
  refine ⟨rfl, rfl, ?_, ?_, ?_, ?_⟩
  · intro h
    have h' := (natInterface_absent h).symm.trans h1
    exact (Except.ok.inj h').symm
  · intro h
    have h' := (natInterface_cons h).symm.trans h1
    exact (Except.ok.inj h').symm
  · intro h
    have h' := (natInterface_absent h).symm.trans h2
    exact (Except.ok.inj h').symm
  · intro h
    have h' := (natInterface_cons h).symm.trans h2
    exact (Except.ok.inj h').symm

/-- Concrete instance of C9_theorem: ippool enable gives a DYNAMIC rule;
    the present non-empty srcintf contributes its first entry, the absent
    dstintf the empty record, and poolname feeds translatedSource — the
    implications of the theorem are discharged at the concrete record. -/
theorem C9_witness :
    ({ name := "NAT_3", natType := "DYNAMIC", sourceInterface := Val.s "port1",
       destinationInterface := Val.dict [], originalSource := [],
       originalDestination := [], translatedSource := Val.s "pool1" } : NatRule).natType =
      (if pyBeq (dictGet [("nat", Val.s "enable"), ("ippool", Val.s "enable"),
                          ("policyid", Val.i 3), ("srcintf", Val.list [Val.s "port1"]),
                          ("poolname", Val.s "pool1")] "ippool" Val.none)
          (Val.s "enable")
       then "DYNAMIC" else "STATIC")
    ∧ ({ name := "NAT_3", natType := "DYNAMIC", sourceInterface := Val.s "port1",
         destinationInterface := Val.dict [], originalSource := [],
         originalDestination := [], translatedSource := Val.s "pool1" } : NatRule).translatedSource
        = dictGet [("nat", Val.s "enable"), ("ippool", Val.s "enable"),
                   ("policyid", Val.i 3), ("srcintf", Val.list [Val.s "port1"]),
                   ("poolname", Val.s "pool1")] "poolname" (Val.s "interface")
    ∧ ({ name := "NAT_3", natType := "DYNAMIC", sourceInterface := Val.s "port1",
         destinationInterface := Val.dict [], originalSource := [],
         originalDestination := [], translatedSource := Val.s "pool1" } : NatRule).sourceInterface
        = Val.s "port1"
    ∧ ({ name := "NAT_3", natType := "DYNAMIC", sourceInterface := Val.s "port1",
         destinationInterface := Val.dict [], originalSource := [],
         originalDestination := [], translatedSource := Val.s "pool1" } : NatRule).destinationInterface
        = Val.dict [] :=
  let h := C9_theorem [("nat", Val.s "enable"), ("ippool", Val.s "enable"),
                       ("policyid", Val.i 3), ("srcintf", Val.list [Val.s "port1"]),
                       ("poolname", Val.s "pool1")] _ (Val.s "port1") (Val.dict []) [] []
                      rfl rfl
  ⟨h.1, h.2.1, h.2.2.2.1 rfl, h.2.2.2.2.1 rfl⟩

/-- Claim C10: the name of every emitted NAT rule is exactly "NAT_"
    followed by the string form of the policy's policyid (the empty string
    when policyid is absent); the policy's own name field plays no role,
    as the statement holds with no assumption on that field. -/
theorem C10_theorem (xs : List (String × Val)) (r : NatRule)
    (hrule : Main.policyToNatRule (Val.dict xs) = Except.ok r)
    (hnat : pyBeq (dictGet xs "nat" Val.none) (Val.s "enable") = true) :
    r.name = "NAT_" ++ pyStr (dictGet xs "policyid" (Val.s "")) := by
  rcases policyToNatRule_shape hrule with ⟨si, di, os, od, -, -, -, -, hr⟩
  subst hr
  rfl

/-- Concrete instance of C10_theorem: a policy that carries both a name
    field and an integer policyid still gets the id-derived NAT name. -/
theorem C10_witness :
    ({ name := "NAT_7", natType := "STATIC", sourceInterface := Val.dict [],
       destinationInterface := Val.dict [], originalSource := [],
       originalDestination := [], translatedSource := Val.s "interface" } : NatRule).name =
      "NAT_" ++ pyStr (dictGet [("nat", Val.s "enable"), ("name", Val.s "mypol"),
                                ("policyid", Val.i 7)] "policyid" (Val.s "")) :=
  C10_theorem [("nat", Val.s "enable"), ("name", Val.s "mypol"), ("policyid", Val.i 7)]
    _ rfl rfl

/-
  Branch behaviour of the two address classifiers.
-/

theorem main_determine_subnet {xs : List (String × Val)} {k : String} {sv : Val}
    (h : xs.find? (fun q => q.1 == "subnet") = some (k, sv)) :
    Main._determine_address_type (.dict xs) = Except.ok "NETWORK" := by
  have hk := hasKey_of_find? h
  unfold Main._determine_address_type
  simp [hk]

theorem main_extract_subnet {xs : List (String × Val)} {k : String} {sv : Val}
    (h : xs.find? (fun q => q.1 == "subnet") = some (k, sv)) :
    Main._extract_address_value (.dict xs) = Except.ok sv := by
  have hk := hasKey_of_find? h
  unfold Main._extract_address_value
  simp [hk, pyGetItem, h]

theorem main_determine_range {xs : List (String × Val)}
    (hns : hasKey xs "subnet" = false)
    (hs : hasKey xs "start-ip" = true) (he : hasKey xs "end-ip" = true) :
    Main._determine_address_type (.dict xs) = Except.ok "RANGE" := by
  unfold Main._determine_address_type
  simp [hns, hs, he]

theorem main_extract_range {xs : List (String × Val)} {ks ke : String} {sV eV : Val}
    (hns : hasKey xs "subnet" = false)
    (hst : xs.find? (fun q => q.1 == "start-ip") = some (ks, sV))
    (hen : xs.find? (fun q => q.1 == "end-ip") = some (ke, eV)) :
    Main._extract_address_value (.dict xs) =
      Except.ok (.s (pyStr sV ++ "-" ++ pyStr eV)) := by
  have hs := hasKey_of_find? hst
  unfold Main._extract_address_value
  simp [hns, hs, pyGetItem, hst, hen]

theorem fgc_determine_iprange {xs : List (String × Val)}
    (h : dictGet xs "type" Val.none = Val.s "iprange") :
    FGC._determine_address_type (.dict xs) = Except.ok "RANGE" := by
  unfold FGC._determine_address_type
  simp [h]

theorem fgc_extract_iprange {xs : List (String × Val)}
    (h : dictGet xs "type" Val.none = Val.s "iprange") :
    FGC._extract_address_value (.dict xs) =
      Except.ok (pyStr (dictGet xs "start-ip" (Val.s "")) ++ "-" ++
                 pyStr (dictGet xs "end-ip" (Val.s ""))) := by
  unfold FGC._extract_address_value
  simp [h]

theorem fgc_determine_subnet2 {xs : List (String × Val)} {k ip mask : String}
    (hty : pyBeq (dictGet xs "type" Val.none) (Val.s "iprange") = false)
    (hsub : xs.find? (fun q => q.1 == "subnet") = some (k, Val.list [Val.s ip, Val.s mask])) :
    FGC._determine_address_type (.dict xs) =
      Except.ok (if mask = "255.255.255.255" then "HOST" else "NETWORK") := by
  have hk := hasKey_of_find? hsub
  unfold FGC._determine_address_type
  by_cases hm : mask = "255.255.255.255"
  · simp [hty, hk, pyGetItem, hsub, pyLen, pyIndexNat, pyStr, hm]
  · have hmb : (mask == "255.255.255.255") = false := beq_eq_false_iff_ne.mpr hm
    simp [hty, hk, pyGetItem, hsub, pyLen, pyIndexNat, pyStr, hm, hmb]

theorem fgc_extract_subnet2 {xs : List (String × Val)} {k ip mask : String}
    (hty : pyBeq (dictGet xs "type" Val.none) (Val.s "iprange") = false)
    (hsub : xs.find? (fun q => q.1 == "subnet") = some (k, Val.list [Val.s ip, Val.s mask])) :
    FGC._extract_address_value (.dict xs) =
      Except.ok (ip ++ "/" ++ toString (FGC._netmask_to_cidr mask)) := by
  have hk := hasKey_of_find? hsub
  unfold FGC._extract_address_value
  simp [hty, hk, pyGetItem, hsub, pyLen, pyIndexNat, pyStr]

/-
  Dissection of the two per-record address translations.
-/

theorem addrToNetworkObject_shape {xs : List (String × Val)} {o : NetworkObject}
    (h : Main.addrToNetworkObject (.dict xs) = Except.ok o) :
    ∃ st v, Main._determine_address_type (.dict xs) = Except.ok st ∧
            Main._extract_address_value (.dict xs) = Except.ok v ∧
            o = { name := dictGet xs "name" (.s ""),
                  description := dictGet xs "comment" (.s ""),
                  type := "networkobject", subType := st, value := v } := by
  unfold Main.addrToNetworkObject at h
  simp only [pyGet_dict, ok_bind] at h
  cases h1 : Main._determine_address_type (.dict xs) with
  | error e => rw [h1] at h; simp at h
  | ok st =>
    rw [h1] at h
    simp only [ok_bind] at h
    cases h2 : Main._extract_address_value (.dict xs) with
    | error e => rw [h2] at h; simp at h
    | ok v =>
      rw [h2] at h
      simp only [ok_bind, pure_eq_ok, Except.ok.injEq] at h
      exact ⟨st, v, rfl, rfl, h.symm⟩

theorem entryToNetworkObject_shape {nm : String} {pxs : List (String × Val)}
    {o : NetworkObject}
    (h : FGC.entryToNetworkObject (.dict [(nm, .dict pxs)]) = Except.ok o) :
    ∃ st v, FGC._determine_address_type (.dict pxs) = Except.ok st ∧
            FGC._extract_address_value (.dict pxs) = Except.ok v ∧
            o = { name := Val.s nm, description := dictGet pxs "comment" (.s ""),
                  type := "networkobject", subType := st, value := Val.s v } := by
  unfold FGC.entryToNetworkObject at h
  simp only [pyKeys, List.map, pure_eq_ok, ok_bind, pyGetItem, List.find?,
             beq_self_eq_true, pyGet_dict] at h
  cases h1 : FGC._determine_address_type (.dict pxs) with
  | error e => rw [h1] at h; simp at h
  | ok st =>
    rw [h1] at h
    simp only [ok_bind] at h
    cases h2 : FGC._extract_address_value (.dict pxs) with
    | error e => rw [h2] at h; simp at h
    | ok v =>
      rw [h2] at h
      simp only [ok_bind, pure_eq_ok, Except.ok.injEq] at h
      exact ⟨st, v, rfl, rfl, h.symm⟩

/-- Counterexample to claim C1 as stated: in the list-of-records converter
    a subnet given as the single string "192.168.1.10 255.255.255.255" is
    not split on whitespace at all — the record is classified NETWORK (not
    HOST) and the value is the stored string verbatim (not
    "192.168.1.10/32"). -/
theorem C1_counterexample :
    Main._determine_address_type (Val.dict [("name", Val.s "h1"),
        ("subnet", Val.s "192.168.1.10 255.255.255.255")]) = Except.ok "NETWORK"
    ∧ Main._extract_address_value (Val.dict [("name", Val.s "h1"),
        ("subnet", Val.s "192.168.1.10 255.255.255.255")]) =
        Except.ok (Val.s "192.168.1.10 255.255.255.255")
    ∧ "NETWORK" ≠ "HOST"
    ∧ "192.168.1.10 255.255.255.255" ≠ "192.168.1.10/32" :=
  ⟨rfl, rfl, by decide, by decide⟩

/-- Claim C1 amended: only the named-map converter performs the
    netmask-to-prefix conversion, and only for a subnet stored as a
    two-element sequence [ip, netmask]: there the emitted object's value
    is "ip/prefix" and its subType is HOST exactly for the all-ones mask.
    The list-of-records converter copies a subnet field verbatim and
    always classifies it NETWORK; no variant splits a subnet string on
    whitespace. -/
theorem C1_amended (nm : String) (pxs : List (String × Val)) (k ip mask : String)
    (o1 : NetworkObject) (mxs : List (String × Val)) (k2 : String) (sv : Val)
    (o2 : NetworkObject)
    (h1 : FGC.entryToNetworkObject (.dict [(nm, .dict pxs)]) = Except.ok o1)
    (h2 : pyBeq (dictGet pxs "type" Val.none) (Val.s "iprange") = false)
    (h3 : pxs.find? (fun q => q.1 == "subnet") = some (k, Val.list [Val.s ip, Val.s mask]))
    (h4 : Main.addrToNetworkObject (.dict mxs) = Except.ok o2)
    (h5 : mxs.find? (fun q => q.1 == "subnet") = some (k2, sv)) :
    o1.subType = (if mask = "255.255.255.255" then "HOST" else "NETWORK")
    ∧ o1.value = Val.s (ip ++ "/" ++ toString (FGC._netmask_to_cidr mask))
    ∧ o2.subType = "NETWORK"
    ∧ o2.value = sv := by
  rcases entryToNetworkObject_shape h1 with ⟨st, v, hst, hv, ho⟩
  subst ho
  rcases addrToNetworkObject_shape h4 with ⟨st2, v2, hst2, hv2, ho2⟩
  subst ho2
  have e1 := (fgc_determine_subnet2 h2 h3).symm.trans hst
  have e2 := (fgc_extract_subnet2 h2 h3).symm.trans hv
  have e3 := (main_determine_subnet h5).symm.trans hst2
  have e4 := (main_extract_subnet h5).symm.trans hv2
  exact ⟨(Except.ok.inj e1).symm, congrArg Val.s (Except.ok.inj e2).symm,
         (Except.ok.inj e3).symm, (Except.ok.inj e4).symm⟩

/-- Concrete instance of C1_amended: the named-map record
    [10.0.0.4, 255.255.255.252] becomes NETWORK "10.0.0.4/30", and a
    list-of-records subnet string passes through verbatim as NETWORK. -/
theorem C1_witness :
    ({ name := Val.s "LE-LO_IP-KVM", description := Val.s "",
       type := "networkobject", subType := "NETWORK",
       value := Val.s "10.0.0.4/30" } : NetworkObject).subType =
      (if "255.255.255.252" = "255.255.255.255" then "HOST" else "NETWORK")
    ∧ ({ name := Val.s "LE-LO_IP-KVM", description := Val.s "",
         type := "networkobject", subType := "NETWORK",
         value := Val.s "10.0.0.4/30" } : NetworkObject).value =
        Val.s ("10.0.0.4" ++ "/" ++ toString (FGC._netmask_to_cidr "255.255.255.252"))
    ∧ ({ name := Val.s "net1", description := Val.s "", type := "networkobject",
         subType := "NETWORK",
         value := Val.s "10.0.0.0 255.255.0.0" } : NetworkObject).subType = "NETWORK"
    ∧ ({ name := Val.s "net1", description := Val.s "", type := "networkobject",
         subType := "NETWORK",
         value := Val.s "10.0.0.0 255.255.0.0" } : NetworkObject).value =
        Val.s "10.0.0.0 255.255.0.0" :=
  C1_amended "LE-LO_IP-KVM" [("subnet", Val.list [Val.s "10.0.0.4", Val.s "255.255.255.252"])]
    "subnet" "10.0.0.4" "255.255.255.252" _
    [("name", Val.s "net1"), ("subnet", Val.s "10.0.0.0 255.255.0.0")] "subnet"
    (Val.s "10.0.0.0 255.255.0.0") _ rfl rfl rfl rfl rfl

/-- Counterexample to claim C2 as stated: the octet 256 is numeric but out
    of the 0-255 range, yet the conversion does not fall back to 32 — the
    try-block only catches the failure of int(), so "255.255.255.256"
    yields 24 one-bits from the three 255 octets plus the single one-bit
    of 256, that is 25. -/
theorem C2_counterexample :
    FGC._netmask_to_cidr "255.255.255.256" = 25
    ∧ (255 : Nat) < 256
    ∧ 25 ≠ 32 :=
  ⟨rfl, by decide, by decide⟩

/-- Claim C2 amended: for four all-numeric octets in range 0-255 the
    conversion returns the one-bit count of the assembled 32-bit value;
    the 32 fallback fires exactly when some octet fails integer parsing
    (non-numeric), while numeric octets outside 0-255 are not rejected
    and contribute the bit count of their absolute value. -/
theorem C2_amended (s a b c d : String) (va vb vc vd : Int) (s2 x2 : String)
    (hsplit : pySplitDot s = [a, b, c, d])
    (ha : pyInt? a = some va) (hb : pyInt? b = some vb)
    (hc : pyInt? c = some vc) (hd : pyInt? d = some vd)
    (ha0 : 0 ≤ va) (ha1 : va ≤ 255) (hb0 : 0 ≤ vb) (hb1 : vb ≤ 255)
    (hc0 : 0 ≤ vc) (hc1 : vc ≤ 255) (hd0 : 0 ≤ vd) (hd1 : vd ≤ 255)
    (hm : x2 ∈ pySplitDot s2) (hx : pyInt? x2 = Option.none) :
    FGC._netmask_to_cidr s =
      FGC.popCount (va.toNat * 2 ^ 24 + vb.toNat * 2 ^ 16 + vc.toNat * 2 ^ 8 + vd.toNat)
    ∧ FGC._netmask_to_cidr s2 = 32 := by
  constructor
  · unfold FGC._netmask_to_cidr
    rw [hsplit]
    simp only [FGC.cidrSum, ha, hb, hc, hd]
    have ea : va.natAbs = va.toNat := by omega
    have eb : vb.natAbs = vb.toNat := by omega
    have ec : vc.natAbs = vc.toNat := by omega
    have ed : vd.natAbs = vd.toNat := by omega
    rw [ea, eb, ec, ed]
    have h256 : (2 : Nat) ^ 8 = 256 := by norm_num
    have hdlt : vd.toNat < 2 ^ 8 := by rw [h256]; omega
    have hclt : vc.toNat < 2 ^ 8 := by rw [h256]; omega
    have hblt : vb.toNat < 2 ^ 8 := by rw [h256]; omega
    have key : va.toNat * 2 ^ 24 + vb.toNat * 2 ^ 16 + vc.toNat * 2 ^ 8 + vd.toNat
             = ((va.toNat * 2 ^ 8 + vb.toNat) * 2 ^ 8 + vc.toNat) * 2 ^ 8 + vd.toNat := by
      ring
    rw [key, popCount_mul_pow_add 8 _ vd.toNat hdlt,
        popCount_mul_pow_add 8 _ vc.toNat hclt,
        popCount_mul_pow_add 8 _ vb.toNat hblt]
    omega
  · unfold FGC._netmask_to_cidr
    rw [cidrSum_none hm hx]

/-- Concrete instance of C2_amended: "255.255.255.0" counts 24 one-bits of
    the 32-bit mask, and the malformed octet in "255.255.255.abc" forces
    the 32 fallback. -/
theorem C2_witness :
    FGC._netmask_to_cidr "255.255.255.0" =
      FGC.popCount ((255 : Int).toNat * 2 ^ 24 + (255 : Int).toNat * 2 ^ 16 +
                    (255 : Int).toNat * 2 ^ 8 + (0 : Int).toNat)
    ∧ FGC._netmask_to_cidr "255.255.255.abc" = 32 :=
  C2_amended "255.255.255.0" "255" "255" "255" "0" 255 255 255 0
    "255.255.255.abc" "abc" rfl rfl rfl rfl rfl
    (by decide) (by decide) (by decide) (by decide)
    (by decide) (by decide) (by decide) (by decide)
    (by decide) rfl

/-- Counterexample to claim C8 as stated: a list-of-records address that
    carries top-level start-ip and end-ip fields together with a subnet
    field is classified NETWORK — the subnet branch is checked first, so
    the record is not a RANGE. -/
theorem C8_counterexample :
    Main._determine_address_type (Val.dict [("subnet", Val.s "10.0.0.0 255.255.255.0"),
        ("start-ip", Val.s "1.1.1.1"), ("end-ip", Val.s "2.2.2.2")]) = Except.ok "NETWORK"
    ∧ "NETWORK" ≠ "RANGE" :=
  ⟨rfl, by decide⟩

/-- Claim C8 amended: in the named-map converter a type field equal to
    iprange always yields subType RANGE with value "start-ip"-"end-ip"
    (defaults empty); in the list-of-records converter a record with
    top-level start-ip and end-ip fields yields RANGE with the same value
    shape provided it carries no subnet field, which takes precedence. -/
theorem C8_amended (nm : String) (ixs : List (String × Val)) (o1 : NetworkObject)
    (mxs : List (String × Val)) (ks ke : String) (sV eV : Val) (o2 : NetworkObject)
    (h1 : FGC.entryToNetworkObject (.dict [(nm, .dict ixs)]) = Except.ok o1)
    (hty : dictGet ixs "type" Val.none = Val.s "iprange")
    (h2 : Main.addrToNetworkObject (.dict mxs) = Except.ok o2)
    (hns : hasKey mxs "subnet" = false)
    (hst : mxs.find? (fun q => q.1 == "start-ip") = some (ks, sV))
    (hen : mxs.find? (fun q => q.1 == "end-ip") = some (ke, eV)) :
    o1.subType = "RANGE"
    ∧ o1.value = Val.s (pyStr (dictGet ixs "start-ip" (Val.s "")) ++ "-" ++
                        pyStr (dictGet ixs "end-ip" (Val.s "")))
    ∧ o2.subType = "RANGE"
    ∧ o2.value = Val.s (pyStr sV ++ "-" ++ pyStr eV) := by
  rcases entryToNetworkObject_shape h1 with ⟨st, v, hstype, hval, ho⟩
  subst ho
  rcases addrToNetworkObject_shape h2 with ⟨st2, v2, hstype2, hval2, ho2⟩
  subst ho2
  have hsk := hasKey_of_find? hst
  have hek := hasKey_of_find? hen
  have e1 := (fgc_determine_iprange hty).symm.trans hstype
  have e2 := (fgc_extract_iprange hty).symm.trans hval
  have e3 := (main_determine_range hns hsk hek).symm.trans hstype2
  have e4 := (main_extract_range hns hst hen).symm.trans hval2
  exact ⟨(Except.ok.inj e1).symm, congrArg Val.s (Except.ok.inj e2).symm,
         (Except.ok.inj e3).symm, (Except.ok.inj e4).symm⟩

/-- Concrete instance of C8_amended on both encodings. -/
theorem C8_witness :
    ({ name := Val.s "SSLVPN_TUNNEL_ADDR1", description := Val.s "",
       type := "networkobject", subType := "RANGE",
       value := Val.s "10.212.134.200-10.212.134.210" } : NetworkObject).subType = "RANGE"
    ∧ ({ name := Val.s "SSLVPN_TUNNEL_ADDR1", description := Val.s "",
         type := "networkobject", subType := "RANGE",
         value := Val.s "10.212.134.200-10.212.134.210" } : NetworkObject).value =
        Val.s (pyStr (dictGet [("type", Val.s "iprange"),
                               ("start-ip", Val.s "10.212.134.200"),
                               ("end-ip", Val.s "10.212.134.210")] "start-ip" (Val.s "")) ++
               "-" ++
               pyStr (dictGet [("type", Val.s "iprange"),
                               ("start-ip", Val.s "10.212.134.200"),
                               ("end-ip", Val.s "10.212.134.210")] "end-ip" (Val.s "")))
    ∧ ({ name := Val.s "rng", description := Val.s "", type := "networkobject",
         subType := "RANGE",
         value := Val.s "192.168.1.10-192.168.1.20" } : NetworkObject).subType = "RANGE"
    ∧ ({ name := Val.s "rng", description := Val.s "", type := "networkobject",
         subType := "RANGE",
         value := Val.s "192.168.1.10-192.168.1.20" } : NetworkObject).value =
        Val.s (pyStr (Val.s "192.168.1.10") ++ "-" ++ pyStr (Val.s "192.168.1.20")) :=
  C8_amended "SSLVPN_TUNNEL_ADDR1"
    [("type", Val.s "iprange"), ("start-ip", Val.s "10.212.134.200"),
     ("end-ip", Val.s "10.212.134.210")] _
    [("name", Val.s "rng"), ("start-ip", Val.s "192.168.1.10"),
     ("end-ip", Val.s "192.168.1.20")] "start-ip" "end-ip"
    (Val.s "192.168.1.10") (Val.s "192.168.1.20") _
    rfl rfl rfl rfl rfl rfl

/-
  Dissection of the full translation into its six sub-translations.
-/

theorem convert_all_shape {cfg : Val} {t : TargetConfig}
    (h : Main.convert_all cfg = Except.ok t) :
    Main.convert_address_objects cfg = Except.ok t.network_objects ∧
    Main.convert_address_groups cfg = Except.ok t.network_groups ∧
    Main.convert_service_objects cfg = Except.ok t.port_objects ∧
    Main.convert_service_groups cfg = Except.ok t.port_groups ∧
    Main.convert_firewall_policies cfg = Except.ok t.access_policies ∧
    Main.convert_nat_policies cfg = Except.ok t.nat_policies := by
  unfold Main.convert_all at h
  cases h1 : Main.convert_address_objects cfg with
  | error e => rw [h1] at h; simp at h
  | ok a =>
    rw [h1] at h
    simp only [ok_bind] at h
    cases h2 : Main.convert_address_groups cfg with
    | error e => rw [h2] at h; simp at h
    | ok b =>
      rw [h2] at h
      simp only [ok_bind] at h
      cases h3 : Main.convert_service_objects cfg with
      | error e => rw [h3] at h; simp at h
      | ok c =>
        rw [h3] at h
        simp only [ok_bind] at h
        cases h4 : Main.convert_service_groups cfg with
        | error e => rw [h4] at h; simp at h
        | ok d =>
          rw [h4] at h
          simp only [ok_bind] at h
          cases h5 : Main.convert_firewall_policies cfg with
          | error e => rw [h5] at h; simp at h
          | ok e =>
            rw [h5] at h
            simp only [ok_bind] at h
            cases h6 : Main.convert_nat_policies cfg with
            | error e => rw [h6] at h; simp at h
            | ok f =>
              rw [h6] at h
              simp only [ok_bind, pure_eq_ok, Except.ok.injEq] at h
              subst h
              exact ⟨rfl, rfl, rfl, rfl, rfl, rfl⟩

/-- Claim C5: whenever the full translation succeeds, each output sequence
    is exactly as long as the iterated input section it was built from —
    no record dropped, none invented — and the NAT sequence is exactly as
    long as the number of policy records whose nat field equals enable. -/
theorem C5_theorem (cfg : Val) (t : TargetConfig) (la lg lc lsg lp : List Val)
    (h : Main.convert_all cfg = Except.ok t)
    (ha : Main.addressSection cfg = Except.ok la)
    (hg : Main.addrgrpSection cfg = Except.ok lg)
    (hc : Main.serviceCustomSection cfg = Except.ok lc)
    (hsg : Main.serviceGroupSection cfg = Except.ok lsg)
    (hp : Main.policySection cfg = Except.ok lp) :
    t.network_objects.length = la.length
    ∧ t.network_groups.length = lg.length
    ∧ t.port_objects.length = lc.length
    ∧ t.port_groups.length = lsg.length
    ∧ t.access_policies.length = lp.length
    ∧ t.nat_policies.length = lp.countP Main.natEnabled := by
  rcases convert_all_shape h with ⟨h1, h2, h3, h4, h5, h6⟩
  refine ⟨?_, ?_, ?_, ?_, ?_, ?_⟩
  · unfold Main.convert_address_objects at h1
    rw [ha] at h1
    exact eachM_length (by simpa using h1)
  · unfold Main.convert_address_groups at h2
    rw [hg] at h2
    exact eachM_length (by simpa using h2)
  · unfold Main.convert_service_objects at h3
    rw [hc] at h3
    exact eachM_length (by simpa using h3)
  · unfold Main.convert_service_groups at h4
    rw [hsg] at h4
    exact eachM_length (by simpa using h4)
  · unfold Main.convert_firewall_policies at h5
    rw [hp] at h5
    exact eachM_length (by simpa using h5)
  · unfold Main.convert_nat_policies at h6
    rw [hp] at h6
    exact natLoop_length (by simpa using h6)

/-
  Concrete source tree and its translation, for the length invariant.
-/

def c5addr : List Val := [.dict [("name", .s "a1"), ("subnet", .s "10.0.0.0 255.0.0.0")]]

def c5grp : List Val := [.dict [("name", .s "g1"), ("member", .list [.s "a1"])]]

def c5svc : List Val := [.dict [("name", .s "svc1"), ("protocol", .s "tcp"), ("tcp-portrange", .s "80")]]

def c5sg : List Val := [.dict [("name", .s "sg1"), ("member", .list [.s "svc1"])]]

def c5pol : List Val :=
  [.dict [("policyid", .i 1), ("action", .s "accept"), ("nat", .s "enable")],
   .dict [("policyid", .i 2), ("action", .s "deny")]]

def c5cfg : Val :=
  .dict [("firewall", .dict
    [("address", .list c5addr), ("addrgrp", .list c5grp),
     ("service", .dict [("custom", .list c5svc), ("group", .list c5sg)]),
     ("policy", .list c5pol)])]

def c5out : TargetConfig :=
  { network_objects := [{ name := Val.s "a1", description := Val.s "",
                          type := "networkobject", subType := "NETWORK",
                          value := Val.s "10.0.0.0 255.0.0.0" }],
    network_groups := [{ name := Val.s "g1", description := Val.s "",
                         type := "networkobjectgroup",
                         objects := [Val.dict [("name", Val.s "a1")]] }],
    port_objects := [{ name := Val.s "svc1", description := Val.s "",
                       type := "portobject", protocol := "TCP", port := Val.s "80" }],
    port_groups := [{ name := Val.s "sg1", description := Val.s "",
                      type := "portobjectgroup",
                      objects := [Val.dict [("name", Val.s "svc1")]] }],
    access_policies := [{ name := Val.s "Rule_1", ruleAction := "ALLOW", enabled := true,
                          sourceZones := [], destinationZones := [], sourceNetworks := [],
                          destinationNetworks := [], sourcePorts := [],
                          logBegin := false, logEnd := false },
                        { name := Val.s "Rule_2", ruleAction := "BLOCK", enabled := true,
                          sourceZones := [], destinationZones := [], sourceNetworks := [],
                          destinationNetworks := [], sourcePorts := [],
                          logBegin := false, logEnd := false }],
    nat_policies := [{ name := "NAT_1", natType := "STATIC",
                       sourceInterface := Val.dict [], destinationInterface := Val.dict [],
                       originalSource := [], originalDestination := [],
                       translatedSource := Val.s "interface" }] }

/-- Concrete instance of C5_theorem: one record per object section, two
    policies of which one is NAT-enabled. -/
theorem C5_witness :
    c5out.network_objects.length = c5addr.length
    ∧ c5out.network_groups.length = c5grp.length
    ∧ c5out.port_objects.length = c5svc.length
    ∧ c5out.port_groups.length = c5sg.length
    ∧ c5out.access_policies.length = c5pol.length
    ∧ c5out.nat_policies.length = c5pol.countP Main.natEnabled :=
  C5_theorem c5cfg c5out c5addr c5grp c5svc c5sg c5pol rfl rfl rfl rfl rfl rfl

/-
  Shape conditions under which the full translation completes.  The
  predicates record which dynamic shapes the code dereferences: sections
  are sequences of mappings, the interface/address/service fields of a
  policy are sequences, action and protocol are strings when present, and
  an address record that carries start-ip without subnet must also carry
  end-ip (the one unguarded subscript in the converter).
-/

def pyOk {α : Type} : PyM α → Bool
  | .ok _ => true
  | .error _ => false

@[simp] theorem pyOk_ok {α : Type} (a : α) : pyOk (Except.ok a) = true := rfl

@[simp] theorem pyOk_error {α : Type} (e : String) : pyOk (Except.error e : PyM α) = false := rfl

theorem pyOk_exists {α : Type} {m : PyM α} (h : pyOk m = true) : ∃ a, m = Except.ok a := by
  cases m with
  | ok a => exact ⟨a, rfl⟩
  | error e => simp at h

def isListV : Val → Bool
  | .list _ => true
  | _ => false

def isStrV : Val → Bool
  | .s _ => true
  | _ => false

def iterableV : Val → Bool
  | .list _ => true
  | .dict _ => true
  | .s _ => true
  | _ => false

theorem isListV_elim {v : Val} (h : isListV v = true) : ∃ l, v = Val.list l := by
  cases v with
  | list l => exact ⟨l, rfl⟩
  | s a => simp [isListV] at h
  | i a => simp [isListV] at h
  | b a => simp [isListV] at h
  | none => simp [isListV] at h
  | dict a => simp [isListV] at h

theorem isStrV_elim {v : Val} (h : isStrV v = true) : ∃ t, v = Val.s t := by
  cases v with
  | s t => exact ⟨t, rfl⟩
  | list a => simp [isStrV] at h
  | i a => simp [isStrV] at h
  | b a => simp [isStrV] at h
  | none => simp [isStrV] at h
  | dict a => simp [isStrV] at h

def wfAddr : Val → Bool
  | .dict xs => !hasKey xs "start-ip" || hasKey xs "subnet" || hasKey xs "end-ip"
  | _ => false

def wfGrp : Val → Bool
  | .dict xs => iterableV (dictGet xs "member" (.list []))
  | _ => false

def wfSvc : Val → Bool
  | .dict xs => isStrV (dictGet xs "protocol" (.s "TCP"))
  | _ => false

def wfPolicy : Val → Bool
  | .dict xs =>
    isStrV (dictGet xs "action" (.s "deny")) &&
    isListV (dictGet xs "srcintf" (.list [])) &&
    isListV (dictGet xs "dstintf" (.list [])) &&
    isListV (dictGet xs "srcaddr" (.list [])) &&
    isListV (dictGet xs "dstaddr" (.list [])) &&
    isListV (dictGet xs "service" (.list []))
  | _ => false

def wfSection (v : Val) (wfRec : Val → Bool) : Bool :=
  match v with
  | .list xs => xs.all wfRec
  | _ => false

def wfConfig (cfg : Val) : Bool :=
  match cfg with
  | .dict xs =>
    (match dictGet xs "firewall" (.dict []) with
     | .dict fw =>
       wfSection (dictGet fw "address" (.list [])) wfAddr &&
       wfSection (dictGet fw "addrgrp" (.list [])) wfGrp &&
       (match dictGet fw "service" (.dict []) with
        | .dict sv =>
          wfSection (dictGet sv "custom" (.list [])) wfSvc &&
          wfSection (dictGet sv "group" (.list [])) wfGrp
        | _ => false) &&
       wfSection (dictGet fw "policy" (.list [])) wfPolicy
     | _ => false)
  | _ => false

theorem wfSection_elim {v : Val} {w : Val → Bool} (h : wfSection v w = true) :
    ∃ xs, v = Val.list xs ∧ ∀ r ∈ xs, w r = true := by
  cases v with
  | list xs =>
    refine ⟨xs, rfl, ?_⟩
    intro r hr
    have hall : xs.all w = true := by simpa [wfSection] using h
    exact List.all_eq_true.mp hall r hr
  | s a => simp [wfSection] at h
  | i a => simp [wfSection] at h
  | b a => simp [wfSection] at h
  | none => simp [wfSection] at h
  | dict a => simp [wfSection] at h

theorem pyIter_ok_of_iterable {v : Val} (h : iterableV v = true) :
    pyOk (pyIter v) = true := by
  cases v with
  | list l => rfl
  | dict l => rfl
  | s t => rfl
  | i a => simp [iterableV] at h
  | b a => simp [iterableV] at h
  | none => simp [iterableV] at h

theorem eachM_pyOk {α : Type} {f : Val → PyM α} {l : List Val}
    (h : ∀ a ∈ l, pyOk (f a) = true) : pyOk (eachM f l) = true := by
  rcases eachM_ok (fun a ha => pyOk_exists (h a ha)) with ⟨out, ho⟩
  simp [ho]

/-
  Per-record totality under the shape conditions.
-/

theorem main_determine_ok (xs : List (String × Val)) :
    pyOk (Main._determine_address_type (.dict xs)) = true := by
  unfold Main._determine_address_type
  cases h1 : hasKey xs "subnet" <;>
  cases h2 : hasKey xs "start-ip" <;>
  cases h3 : hasKey xs "end-ip" <;>
  cases h4 : hasKey xs "fqdn" <;>
  simp [h1, h2, h3, h4, pyGetItem]

theorem main_extract_ok {xs : List (String × Val)}
    (hwf : (!hasKey xs "start-ip" || hasKey xs "subnet" || hasKey xs "end-ip") = true) :
    pyOk (Main._extract_address_value (.dict xs)) = true := by
  unfold Main._extract_address_value
  cases h1 : hasKey xs "subnet" with
  | true =>
    rcases pyGetItem_ok_of_hasKey h1 with ⟨v, hv⟩
    simp [h1, hv]
  | false =>
    cases h2 : hasKey xs "start-ip" with
    | true =>
      have h3 : hasKey xs "end-ip" = true := by
        rw [h1, h2] at hwf
        simpa using hwf
      rcases pyGetItem_ok_of_hasKey h2 with ⟨sv, hsv⟩
      rcases pyGetItem_ok_of_hasKey h3 with ⟨ev, hev⟩
      simp [h1, h2, hsv, hev]
    | false =>
      cases h4 : hasKey xs "fqdn" with
      | true =>
        rcases pyGetItem_ok_of_hasKey h4 with ⟨v, hv⟩
        simp [h1, h2, h4, hv]
      | false =>
        simp [h1, h2, h4]

theorem addrToNetworkObject_ok {a : Val} (h : wfAddr a = true) :
    pyOk (Main.addrToNetworkObject a) = true := by
  cases a with
  | dict xs =>
    have hwf : (!hasKey xs "start-ip" || hasKey xs "subnet" || hasKey xs "end-ip") = true := by
      simpa [wfAddr] using h
    rcases pyOk_exists (main_determine_ok xs) with ⟨st, hst⟩
    rcases pyOk_exists (main_extract_ok hwf) with ⟨v, hv⟩
    unfold Main.addrToNetworkObject
    simp [hst, hv]
  | s v => simp [wfAddr] at h
  | i v => simp [wfAddr] at h
  | b v => simp [wfAddr] at h
  | none => simp [wfAddr] at h
  | list l => simp [wfAddr] at h

theorem grpToNetworkGroup_ok {g : Val} (h : wfGrp g = true) :
    pyOk (Main.grpToNetworkGroup g) = true := by
  cases g with
  | dict xs =>
    have hit : iterableV (dictGet xs "member" (.list [])) = true := by
      simpa [wfGrp] using h
    rcases pyOk_exists (pyIter_ok_of_iterable hit) with ⟨l, hl⟩
    unfold Main.grpToNetworkGroup
    simp [hl]
  | s v => simp [wfGrp] at h
  | i v => simp [wfGrp] at h
  | b v => simp [wfGrp] at h
  | none => simp [wfGrp] at h
  | list l => simp [wfGrp] at h

theorem grpToPortGroup_ok {g : Val} (h : wfGrp g = true) :
    pyOk (Main.grpToPortGroup g) = true := by
  cases g with
  | dict xs =>
    have hit : iterableV (dictGet xs "member" (.list [])) = true := by
      simpa [wfGrp] using h
    rcases pyOk_exists (pyIter_ok_of_iterable hit) with ⟨l, hl⟩
    unfold Main.grpToPortGroup
    simp [hl]
  | s v => simp [wfGrp] at h
  | i v => simp [wfGrp] at h
  | b v => simp [wfGrp] at h
  | none => simp [wfGrp] at h
  | list l => simp [wfGrp] at h

theorem extract_port_ok (xs : List (String × Val)) :
    pyOk (Main._extract_port_value (.dict xs)) = true := by
  unfold Main._extract_port_value
  cases h1 : hasKey xs "tcp-portrange" with
  | true =>
    rcases pyGetItem_ok_of_hasKey h1 with ⟨v, hv⟩
    simp [h1, hv]
  | false =>
    cases h2 : hasKey xs "udp-portrange" with
    | true =>
      rcases pyGetItem_ok_of_hasKey h2 with ⟨v, hv⟩
      simp [h1, h2, hv]
    | false =>
      cases h3 : hasKey xs "sctp-portrange" with
      | true =>
        rcases pyGetItem_ok_of_hasKey h3 with ⟨v, hv⟩
        simp [h1, h2, h3, hv]
      | false =>
        simp [h1, h2, h3]

theorem svcToPortObject_ok {s : Val} (h : wfSvc s = true) :
    pyOk (Main.svcToPortObject s) = true := by
  cases s with
  | dict xs =>
    have hstr : isStrV (dictGet xs "protocol" (.s "TCP")) = true := by
      simpa [wfSvc] using h
    rcases isStrV_elim hstr with ⟨t, ht⟩
    rcases pyOk_exists (extract_port_ok xs) with ⟨pv, hpv⟩
    unfold Main.svcToPortObject
    simp [ht, hpv]
  | s v => simp [wfSvc] at h
  | i v => simp [wfSvc] at h
  | b v => simp [wfSvc] at h
  | none => simp [wfSvc] at h
  | list l => simp [wfSvc] at h

theorem policyToAccessRule_ok {p : Val} (h : wfPolicy p = true) :
    pyOk (Main.policyToAccessRule p) = true := by
  cases p with
  | dict xs =>
    obtain ⟨⟨⟨⟨⟨h1, h2⟩, h3⟩, h4⟩, h5⟩, h6⟩ :
        ((((isStrV (dictGet xs "action" (.s "deny")) = true ∧
            isListV (dictGet xs "srcintf" (.list [])) = true) ∧
            isListV (dictGet xs "dstintf" (.list [])) = true) ∧
            isListV (dictGet xs "srcaddr" (.list [])) = true) ∧
            isListV (dictGet xs "dstaddr" (.list [])) = true) ∧
            isListV (dictGet xs "service" (.list [])) = true := by
      simpa [wfPolicy, Bool.and_eq_true, and_assoc] using h
    rcases isStrV_elim h1 with ⟨act, hact⟩
    rcases isListV_elim h2 with ⟨l1, hl1⟩
    rcases isListV_elim h3 with ⟨l2, hl2⟩
    rcases isListV_elim h4 with ⟨l3, hl3⟩
    rcases isListV_elim h5 with ⟨l4, hl4⟩
    rcases isListV_elim h6 with ⟨l5, hl5⟩
    unfold Main.policyToAccessRule
    simp [hact, hl1, hl2, hl3, hl4, hl5, Main._map_action, pyIter]
  | s v => simp [wfPolicy] at h
  | i v => simp [wfPolicy] at h
  | b v => simp [wfPolicy] at h
  | none => simp [wfPolicy] at h
  | list l => simp [wfPolicy] at h

theorem natInterface_emptyList {xs : List (String × Val)} {k : String}
    (h : dictGet xs k Val.none = Val.list []) :
    Main.natInterface (.dict xs) k = Except.ok (Val.dict []) := by
  unfold Main.natInterface
  simp [h, pyTruthy]

theorem natInterface_ok {xs : List (String × Val)} {k : String}
    (h : isListV (dictGet xs k (.list [])) = true) :
    pyOk (Main.natInterface (.dict xs) k) = true := by
  cases hf : xs.find? (fun q => q.1 == k) with
  | none =>
    have e : dictGet xs k Val.none = Val.none := by simp [dictGet, hf]
    simp [natInterface_absent e]
  | some pr =>
    have e1 : dictGet xs k Val.none = pr.2 := by simp [dictGet, hf]
    have e2 : dictGet xs k (.list []) = pr.2 := by simp [dictGet, hf]
    rw [e2] at h
    rcases isListV_elim h with ⟨l, hl⟩
    cases l with
    | nil =>
      have : dictGet xs k Val.none = Val.list [] := by rw [e1, hl]
      simp [natInterface_emptyList this]
    | cons x t =>
      have : dictGet xs k Val.none = Val.list (x :: t) := by rw [e1, hl]
      simp [natInterface_cons this]

theorem policyToNatRule_ok {p : Val} (h : wfPolicy p = true) :
    pyOk (Main.policyToNatRule p) = true := by
  cases p with
  | dict xs =>
    obtain ⟨⟨⟨⟨⟨h1, h2⟩, h3⟩, h4⟩, h5⟩, h6⟩ :
        ((((isStrV (dictGet xs "action" (.s "deny")) = true ∧
            isListV (dictGet xs "srcintf" (.list [])) = true) ∧
            isListV (dictGet xs "dstintf" (.list [])) = true) ∧
            isListV (dictGet xs "srcaddr" (.list [])) = true) ∧
            isListV (dictGet xs "dstaddr" (.list [])) = true) ∧
            isListV (dictGet xs "service" (.list [])) = true := by
      simpa [wfPolicy, Bool.and_eq_true, and_assoc] using h
    rcases pyOk_exists (natInterface_ok h2) with ⟨si, hsi⟩
    rcases pyOk_exists (natInterface_ok h3) with ⟨di, hdi⟩
    rcases isListV_elim h4 with ⟨l3, hl3⟩
    rcases isListV_elim h5 with ⟨l4, hl4⟩
    unfold Main.policyToNatRule
    simp [hsi, hdi, hl3, hl4, pyIter]
  | s v => simp [wfPolicy] at h
  | i v => simp [wfPolicy] at h
  | b v => simp [wfPolicy] at h
  | none => simp [wfPolicy] at h
  | list l => simp [wfPolicy] at h

theorem natLoop_ok : ∀ {l : List Val},
    (∀ p ∈ l, wfPolicy p = true) → pyOk (Main.natLoop l) = true := by
  intro l
  induction l with
  | nil => intro _; rfl
  | cons p ps ih =>
    intro h
    have hp := h p (List.mem_cons_self p ps)
    have hps := fun a ha => h a (List.mem_cons_of_mem p ha)
    cases p with
    | dict xs =>
      simp only [Main.natLoop, pyGet_dict, ok_bind]
      by_cases hg : pyBeq (dictGet xs "nat" Val.none) (Val.s "enable") = true
      · rw [if_pos hg]
        rcases pyOk_exists (policyToNatRule_ok hp) with ⟨r, hr⟩
        rcases pyOk_exists (ih hps) with ⟨rs, hrs⟩
        simp [hr, hrs]
      · rw [if_neg hg]
        exact ih hps
    | s v => simp [wfPolicy] at hp
    | i v => simp [wfPolicy] at hp
    | b v => simp [wfPolicy] at hp
    | none => simp [wfPolicy] at hp
    | list l2 => simp [wfPolicy] at hp

/-- Counterexample to claim C3 as stated: the top level is a mapping, yet
    the translation raises.  The address record carries start-ip without
    end-ip, and _extract_address_value subscripts end-ip guarded only by
    the presence of start-ip, so the KeyError propagates out of
    convert_all. -/
theorem C3_counterexample :
    Main.convert_all (Val.dict [("firewall", Val.dict [("address",
        Val.list [Val.dict [("name", Val.s "r1"), ("start-ip", Val.s "1.2.3.4")]])])]) =
      Except.error "KeyError" := rfl

/-- Claim C3 amended: the translation completes and returns a full
    TargetConfig for every mapping-topped source tree whose sections are
    well shaped (wfConfig): sections are sequences of mappings, policy
    interface/address/service fields are sequences, action and protocol
    are strings when present, and an address record carrying start-ip but
    no subnet also carries end-ip.  Within that shape every missing key is
    handled by a defaulted accessor and never raises; outside it the
    translation can raise (see the start-ip/end-ip counterexample). -/
theorem C3_amended (cfg : Val) (h : wfConfig cfg = true) :
    pyOk (Main.convert_all cfg) = true := by
  cases cfg with
  | dict xs =>
    cases hfw : dictGet xs "firewall" (.dict []) with
    | dict fw =>
      simp only [wfConfig, hfw] at h
      cases hsv : dictGet fw "service" (.dict []) with
      | dict sv =>
        simp only [hsv] at h
        obtain ⟨⟨⟨hA, hB⟩, hC⟩, hD⟩ :
            ((wfSection (dictGet fw "address" (.list [])) wfAddr = true ∧
              wfSection (dictGet fw "addrgrp" (.list [])) wfGrp = true) ∧
              (wfSection (dictGet sv "custom" (.list [])) wfSvc = true ∧
               wfSection (dictGet sv "group" (.list [])) wfGrp = true)) ∧
              wfSection (dictGet fw "policy" (.list [])) wfPolicy = true := by
          simpa [Bool.and_eq_true] using h
        obtain ⟨hC1, hC2⟩ := hC
        rcases wfSection_elim hA with ⟨arecs, haeq, haall⟩
        rcases wfSection_elim hB with ⟨grecs, hgeq, hgall⟩
        rcases wfSection_elim hC1 with ⟨crecs, hceq, hcall⟩
        rcases wfSection_elim hC2 with ⟨srecs, hseq, hsall⟩
        rcases wfSection_elim hD with ⟨precs, hpeq, hpall⟩
        have hao : pyOk (Main.convert_address_objects (.dict xs)) = true := by
          unfold Main.convert_address_objects Main.addressSection
          simp only [pyGet_dict, ok_bind]
          rw [hfw]
          simp only [pyGet_dict, ok_bind]
          rw [haeq]
          simp only [pyIter, pure_eq_ok, ok_bind]
          exact eachM_pyOk (fun a ha => addrToNetworkObject_ok (haall a ha))
        have hgo : pyOk (Main.convert_address_groups (.dict xs)) = true := by
          unfold Main.convert_address_groups Main.addrgrpSection
          simp only [pyGet_dict, ok_bind]
          rw [hfw]
          simp only [pyGet_dict, ok_bind]
          rw [hgeq]
          simp only [pyIter, pure_eq_ok, ok_bind]
          exact eachM_pyOk (fun a ha => grpToNetworkGroup_ok (hgall a ha))
        have hco : pyOk (Main.convert_service_objects (.dict xs)) = true := by
          unfold Main.convert_service_objects Main.serviceCustomSection
          simp only [pyGet_dict, ok_bind]
          rw [hfw]
          simp only [pyGet_dict, ok_bind]
          rw [hsv]
          simp only [pyGet_dict, ok_bind]
          rw [hceq]
          simp only [pyIter, pure_eq_ok, ok_bind]
          exact eachM_pyOk (fun a ha => svcToPortObject_ok (hcall a ha))
        have hso : pyOk (Main.convert_service_groups (.dict xs)) = true := by
          unfold Main.convert_service_groups Main.serviceGroupSection
          simp only [pyGet_dict, ok_bind]
          rw [hfw]
          simp only [pyGet_dict, ok_bind]
          rw [hsv]
          simp only [pyGet_dict, ok_bind]
          rw [hseq]
          simp only [pyIter, pure_eq_ok, ok_bind]
          exact eachM_pyOk (fun a ha => grpToPortGroup_ok (hsall a ha))
        have hpo : pyOk (Main.convert_firewall_policies (.dict xs)) = true := by
          unfold Main.convert_firewall_policies Main.policySection
          simp only [pyGet_dict, ok_bind]
          rw [hfw]
          simp only [pyGet_dict, ok_bind]
          rw [hpeq]
          simp only [pyIter, pure_eq_ok, ok_bind]
          exact eachM_pyOk (fun a ha => policyToAccessRule_ok (hpall a ha))
        have hno : pyOk (Main.convert_nat_policies (.dict xs)) = true := by
          unfold Main.convert_nat_policies Main.policySection
          simp only [pyGet_dict, ok_bind]
          rw [hfw]
          simp only [pyGet_dict, ok_bind]
          rw [hpeq]
          simp only [pyIter, pure_eq_ok, ok_bind]
          exact natLoop_ok hpall
        rcases pyOk_exists hao with ⟨A, hA2⟩
        rcases pyOk_exists hgo with ⟨B, hB2⟩
        rcases pyOk_exists hco with ⟨C, hC3⟩
        rcases pyOk_exists hso with ⟨D, hD2⟩
        rcases pyOk_exists hpo with ⟨E, hE2⟩
        rcases pyOk_exists hno with ⟨F, hF2⟩
        unfold Main.convert_all
        simp [hA2, hB2, hC3, hD2, hE2, hF2]
      | s v => simp only [hsv] at h; simp at h
      | i v => simp only [hsv] at h; simp at h
      | b v => simp only [hsv] at h; simp at h
      | none => simp only [hsv] at h; simp at h
      | list l => simp only [hsv] at h; simp at h
    | s v => simp [wfConfig, hfw] at h
    | i v => simp [wfConfig, hfw] at h
    | b v => simp [wfConfig, hfw] at h
    | none => simp [wfConfig, hfw] at h
    | list l => simp [wfConfig, hfw] at h
  | s v => simp [wfConfig] at h
  | i v => simp [wfConfig] at h
  | b v => simp [wfConfig] at h
  | none => simp [wfConfig] at h
  | list l => simp [wfConfig] at h

/-- A well-shaped mixed configuration used to instantiate C3_amended. -/
def c3cfg : Val :=
  .dict [("firewall", .dict
    [("address", .list [.dict [("name", .s "h"), ("ip", .s "1.2.3.4")],
                        .dict [("name", .s "r"), ("start-ip", .s "1.1.1.1"),
                               ("end-ip", .s "2.2.2.2")]]),
     ("policy", .list [.dict [("policyid", .i 9), ("action", .s "accept"),
                              ("nat", .s "enable")]])])]

/-- Concrete instance of C3_amended: the mixed configuration translates
    to completion. -/
theorem C3_witness : pyOk (Main.convert_all c3cfg) = true :=
  C3_amended c3cfg rfl
